import Mathlib

/-!
Shallow embedding of `src/apps/server/main.py` (Elastic DCA Engine v3.4.2).

Python floats are modelled as `ℚ`, Python dicts keyed by `str(int)` as
association lists keyed by `Nat` (dict semantics: overwrite in place,
append new keys at the end), Python string containment (`a in b`) as
`pyIn`, and the module-level regex `TRADE_ID_PATTERN` as an executable
character-level matcher.  `uuid.uuid4().hex[:8]` and `time.time()` /
`datetime.now().isoformat()` are injected as parameters (`seed`, `now`,
`ts`), mirroring the code's use of an external entropy / clock source.
-/

namespace ElasticDCA

/-- `GridRow` (pydantic model): one layer of the grid table. -/
structure GridRow where
  index : Int
  dollar : ℚ
  lots : ℚ
  alert : Bool
deriving DecidableEq, Repr

/-- `Position` (pydantic model): one broker position from the tick. -/
structure Position where
  ticket : Int
  symbol : String
  ptype : String
  volume : ℚ
  price : ℚ
  profit : ℚ
  comment : String
deriving DecidableEq, Repr

/-- `TickData` (pydantic model): one market snapshot. -/
structure TickData where
  account_id : String
  equity : ℚ
  balance : ℚ
  symbol : String
  ask : ℚ
  bid : ℚ
  positions : List Position
deriving DecidableEq, Repr

/-- `RowExecStats` (pydantic model): execution record of one layer. -/
structure RowExecStats where
  index : Int
  entry_price : ℚ
  lots : ℚ
  profit : ℚ
  timestamp : String
  cumulative_lots : ℚ
  cumulative_profit : ℚ
deriving DecidableEq, Repr

/-- A Python dict `Dict[str, RowExecStats]` whose keys are always
`str(idx)` for a non-negative int `idx`: association list keyed by `Nat`,
in insertion order. -/
abbrev ExecMap := List (Nat × RowExecStats)

/-- Dict lookup `m[str(k)]`. -/
def mapLookup (m : ExecMap) (k : Nat) : Option RowExecStats :=
  (m.find? (fun kv => kv.1 = k)).map (fun kv => kv.2)

/-- Dict membership `str(k) in m`. -/
def mapHasKey (m : ExecMap) (k : Nat) : Bool :=
  (m.map Prod.fst).contains k

/-- Dict assignment `m[str(k)] = v`: overwrite in place if the key is
present, else append at the end (CPython dict insertion order). -/
def mapInsert (m : ExecMap) (k : Nat) (v : RowExecStats) : ExecMap :=
  if mapHasKey m k then m.map (fun kv => if kv.1 = k then (k, v) else kv)
  else m ++ [(k, v)]

/-- `sorted([int(x) for x in m.keys()])[-1]` for a non-empty dict:
the largest key (`0` on the empty dict, guarded at call sites). -/
def mapMaxKey (m : ExecMap) : Nat :=
  (m.map Prod.fst).foldr Nat.max 0

/-- `RuntimeState` (pydantic model). -/
structure RuntimeState where
  buy_on : Bool
  sell_on : Bool
  cyclic_on : Bool
  buy_id : String
  sell_id : String
  buy_is_closing : Bool
  sell_is_closing : Bool
  buy_hedge_triggered : Bool
  sell_hedge_triggered : Bool
  buy_waiting_limit : Bool
  sell_waiting_limit : Bool
  buy_start_ref : ℚ
  sell_start_ref : ℚ
  buy_exec_map : ExecMap
  sell_exec_map : ExecMap
  pending_actions : List String
  current_price : ℚ
  current_ask : ℚ
  current_bid : ℚ
  price_direction : String
  error_status : String
  buy_last_order_sent_ts : ℚ
  sell_last_order_sent_ts : ℚ
deriving DecidableEq, Repr

/-- `UserSettings` (pydantic model). -/
structure UserSettings where
  buy_limit_price : ℚ
  sell_limit_price : ℚ
  buy_tp_type : String
  buy_tp_value : ℚ
  sell_tp_type : String
  sell_tp_value : ℚ
  buy_hedge_value : ℚ
  sell_hedge_value : ℚ
  rows_buy : List GridRow
  rows_sell : List GridRow
deriving DecidableEq, Repr

/-- `SystemState` plus the module-level `price_history` deque
(pairs `(mid, ts)`). -/
structure SystemState where
  settings : UserSettings
  runtime : RuntimeState
  last_update_ts : String
  price_history : List (ℚ × ℚ)
deriving DecidableEq, Repr

/-- Default `RuntimeState` (pydantic field defaults). -/
def initRuntime : RuntimeState :=
  { buy_on := false, sell_on := false, cyclic_on := false
    buy_id := "", sell_id := ""
    buy_is_closing := false, sell_is_closing := false
    buy_hedge_triggered := false, sell_hedge_triggered := false
    buy_waiting_limit := false, sell_waiting_limit := false
    buy_start_ref := 0, sell_start_ref := 0
    buy_exec_map := [], sell_exec_map := []
    pending_actions := []
    current_price := 0, current_ask := 0, current_bid := 0
    price_direction := "neutral"
    error_status := ""
    buy_last_order_sent_ts := 0, sell_last_order_sent_ts := 0 }

/-- Default `UserSettings` (pydantic field defaults). -/
def initSettings : UserSettings :=
  { buy_limit_price := 0, sell_limit_price := 0
    buy_tp_type := "equity_pct", buy_tp_value := 0
    sell_tp_type := "equity_pct", sell_tp_value := 0
    buy_hedge_value := 0, sell_hedge_value := 0
    rows_buy := [], rows_sell := [] }

/-- Fresh-start state (no state file found). -/
def initState : SystemState :=
  { settings := initSettings, runtime := initRuntime
    last_update_ts := "", price_history := [] }

/-- `PRICE_HISTORY_LEN = 100`. -/
def PRICE_HISTORY_LEN : Nat := 100

/-- `EXTERNAL_CLOSE_GRACE_PERIOD = 5.0`. -/
def EXTERNAL_CLOSE_GRACE_PERIOD : ℚ := 5

/-- Python `needle in hay` on strings (substring containment; the empty
needle is contained in every string). -/
def pyIn (needle hay : String) : Bool :=
  needle.isEmpty || (hay.splitOn needle).length != 1

/-- Hex digit class `[0-9a-fA-F]` of `TRADE_ID_PATTERN`. -/
def isHexChar (c : Char) : Bool :=
  c.isDigit || ('a' ≤ c && c ≤ 'f') || ('A' ≤ c && c ≤ 'F')

/-- The `_[0-9a-fA-F]{8}_idx\d+` tail of `TRADE_ID_PATTERN`. -/
def matchHashIdx (cs : List Char) : Bool :=
  match cs with
  | '_' :: rest =>
    decide ((rest.take 8).length = 8) && (rest.take 8).all isHexChar &&
      (match rest.drop 8 with
       | '_' :: 'i' :: 'd' :: 'x' :: ds => !ds.isEmpty && ds.all Char.isDigit
       | _ => false)
  | _ => false

/-- `TRADE_ID_PATTERN.match(s)`: anchored match of
`^(sell|buy)_[0-9a-fA-F]{8}_idx\d+$`. -/
def tradeIdMatch (s : String) : Bool :=
  match s.toList with
  | 's' :: 'e' :: 'l' :: 'l' :: rest => matchHashIdx rest
  | 'b' :: 'u' :: 'y' :: rest => matchHashIdx rest
  | _ => false

/-- `get_hash(side)`: `f"{side}_{uuid4().hex[:8]}"` with the entropy
injected as `seed`. -/
def get_hash (side : String) (seed : String) : String :=
  side ++ "_" ++ seed

/-- Default grid row used for guarded positional list access. -/
def dfltRow : GridRow := { index := 0, dollar := 0, lots := 0, alert := false }

/-- `calculate_grid_level_price(side, level_index)` (reads the global
state: anchor `*_start_ref` and layer table `rows_*`). -/
def calculate_grid_level_price (s : SystemState) (side : String)
    (level_index : Nat) : ℚ :=
  if side = "buy" then
    (List.range (level_index + 1)).foldl
      (fun ref i =>
        if i < s.settings.rows_buy.length then
          ref - (s.settings.rows_buy.getD i dfltRow).dollar
        else ref)
      s.runtime.buy_start_ref
  else
    (List.range (level_index + 1)).foldl
      (fun ref i =>
        if i < s.settings.rows_sell.length then
          ref + (s.settings.rows_sell.getD i dfltRow).dollar
        else ref)
      s.runtime.sell_start_ref

/-- `int(x)` on the decimal string produced by a `\d+` regex group. -/
def parseIdx (x : String) : Option Nat := x.toNat?

/-- One loop iteration body of `update_exec_stats`, folded over the
position list: pattern filter, identity-conflict checks (early return),
then the idempotent per-index overwrites of the two maps. -/
def absorb (buyId sellId ts : String) :
    List Position → ExecMap → ExecMap → Except String (ExecMap × ExecMap)
  | [], bm, sm => Except.ok (bm, sm)
  | p :: ps, bm, sm =>
    if tradeIdMatch p.comment = false then absorb buyId sellId ts ps bm sm
    else if pyIn "buy_" p.comment ∧ (buyId = "" ∨ pyIn buyId p.comment = false) then
      Except.error
        ("CRITICAL: Identity Conflict. Unknown Buy trade " ++ toString p.ticket
          ++ " detected.")
    else if pyIn "sell_" p.comment ∧ (sellId = "" ∨ pyIn sellId p.comment = false) then
      Except.error
        ("CRITICAL: Identity Conflict. Unknown Sell trade " ++ toString p.ticket
          ++ " detected.")
    else
      let bm :=
        if p.ptype = "BUY" ∧ pyIn buyId p.comment = true then
          match p.comment.splitOn "_idx" with
          | [_, d] =>
            match parseIdx d with
            | some idx =>
              mapInsert bm idx
                { index := (idx : Int), entry_price := p.price, lots := p.volume
                  profit := p.profit, timestamp := ts
                  cumulative_lots := 0, cumulative_profit := 0 }
            | none => bm
          | _ => bm
        else bm
      let sm :=
        if p.ptype = "SELL" ∧ pyIn sellId p.comment = true then
          match p.comment.splitOn "_idx" with
          | [_, d] =>
            match parseIdx d with
            | some idx =>
              mapInsert sm idx
                { index := (idx : Int), entry_price := p.price, lots := p.volume
                  profit := p.profit, timestamp := ts
                  cumulative_lots := 0, cumulative_profit := 0 }
            | none => sm
          | _ => sm
        else sm
      absorb buyId sellId ts ps bm sm

/-- The cumulative-statistics pass of `update_exec_stats`: walk keys in
sorted order, accumulating `cumulative_lots` / `cumulative_profit`. -/
def cumUpdate : ExecMap → List Nat → ℚ → ℚ → ExecMap
  | m, [], _, _ => m
  | m, k :: ks, cl, cp =>
    match mapLookup m k with
    | none => cumUpdate m ks cl cp
    | some row =>
      cumUpdate
        (mapInsert m k
          { row with cumulative_lots := cl + row.lots
                     cumulative_profit := cp + row.profit })
        ks (cl + row.lots) (cp + row.profit)

/-- `sorted([int(k) for k in map_dict.keys()])`. -/
def sortedKeys (m : ExecMap) : List Nat :=
  (m.map Prod.fst).insertionSort (fun a b => a ≤ b)

/-- Recompute basket cumulatives of one map (second half of
`update_exec_stats`). -/
def recompute (m : ExecMap) : ExecMap :=
  cumUpdate m (sortedKeys m) 0 0

/-- `update_exec_stats(tick)`: absorb broker positions into the two exec
maps; on an identity conflict set `error_status` and leave the maps
untouched, otherwise commit both maps with recomputed cumulatives. -/
def update_exec_stats (s : SystemState) (t : TickData) (ts : String) :
    SystemState :=
  match absorb s.runtime.buy_id s.runtime.sell_id ts t.positions
      s.runtime.buy_exec_map s.runtime.sell_exec_map with
  | Except.error e => { s with runtime := { s.runtime with error_status := e } }
  | Except.ok (bm, sm) =>
    { s with runtime :=
        { s.runtime with buy_exec_map := recompute bm
                         sell_exec_map := recompute sm } }

/-- `check_tp_buy(tick)` (returns `-1`, `0`, or `1`). -/
def check_tp_buy (s : SystemState) (t : TickData) : Int :=
  if s.settings.buy_tp_value ≤ 0 ∨ s.runtime.buy_id = "" then -1
  else
    let buy_positions := t.positions.filter
      (fun p => pyIn s.runtime.buy_id p.comment)
    if buy_positions = [] then 0
    else
      let profit := (buy_positions.map (fun p => p.profit)).sum
      let target : ℚ :=
        if s.settings.buy_tp_type = "equity_pct" then
          t.equity * (s.settings.buy_tp_value / 100)
        else if s.settings.buy_tp_type = "balance_pct" then
          t.balance * (s.settings.buy_tp_value / 100)
        else if s.settings.buy_tp_type = "fixed_money" then
          s.settings.buy_tp_value
        else 0
      if target > 0 ∧ profit ≥ target then 1 else 0

/-- `check_tp_sell(tick)` (returns `-1`, `0`, or `1`). -/
def check_tp_sell (s : SystemState) (t : TickData) : Int :=
  if s.settings.sell_tp_value ≤ 0 ∨ s.runtime.sell_id = "" then -1
  else
    let sell_positions := t.positions.filter
      (fun p => pyIn s.runtime.sell_id p.comment)
    if sell_positions = [] then 0
    else
      let profit := (sell_positions.map (fun p => p.profit)).sum
      let target : ℚ :=
        if s.settings.sell_tp_type = "equity_pct" then
          t.equity * (s.settings.sell_tp_value / 100)
        else if s.settings.sell_tp_type = "balance_pct" then
          t.balance * (s.settings.sell_tp_value / 100)
        else if s.settings.sell_tp_type = "fixed_money" then
          s.settings.sell_tp_value
        else 0
      if target > 0 ∧ profit ≥ target then 1 else 0

/-- `count_active_trades(tick, hash_id)`. -/
def count_active_trades (t : TickData) (hash_id : String) : Nat :=
  if hash_id = "" then 0
  else (t.positions.filter (fun p => pyIn hash_id p.comment)).length

/-- Default exec record used for guarded lookups. -/
def dfltStats : RowExecStats :=
  { index := 0, entry_price := 0, lots := 0, profit := 0, timestamp := ""
    cumulative_lots := 0, cumulative_profit := 0 }

/-- `get_last_executed_price(side)`. -/
def get_last_executed_price (s : SystemState) (side : String) : ℚ :=
  if side = "buy" then
    if s.runtime.buy_exec_map = [] then s.runtime.buy_start_ref
    else ((mapLookup s.runtime.buy_exec_map
      (mapMaxKey s.runtime.buy_exec_map)).getD dfltStats).entry_price
  else
    if s.runtime.sell_exec_map = [] then s.runtime.sell_start_ref
    else ((mapLookup s.runtime.sell_exec_map
      (mapMaxKey s.runtime.sell_exec_map)).getD dfltStats).entry_price

/-- A tick reply: exactly one of WAIT (with optional error), an open
order (BUY/SELL with volume, comment, alert), or CLOSE_ALL. -/
inductive Action where
  | wait (err : Option String)
  | openOrder (side : String) (volume : ℚ) (comment : String) (alert : Bool)
  | closeAll (comment : String)
deriving DecidableEq, Repr

/-- Early-return combinator for the pipeline: a phase that produced an
action short-circuits the rest of `handle_tick`. -/
def andThen (r : SystemState × Option Action)
    (f : SystemState → SystemState × Option Action) :
    SystemState × Option Action :=
  match r with
  | (s, some a) => (s, some a)
  | (s, none) => f s

/-- Pipeline step 1, the conflict block: a non-empty `error_status`
replies WAIT with the error before any state is touched. -/
def phErrorGate (s : SystemState) : SystemState × Option Action :=
  if s.runtime.error_status ≠ "" then
    (s, some (Action.wait (some s.runtime.error_status)))
  else (s, none)

/-- Pipeline step 2, the market-data update: ask/bid/mid, price
direction against the previous mid, the bounded price history, and the
human-readable `last_update_ts`. -/
def phMarket (s : SystemState) (t : TickData) (now : ℚ) (ts : String) :
    SystemState :=
  let mid := (t.ask + t.bid) / 2
  let dir :=
    match s.price_history.getLast? with
    | some pr => if mid > pr.1 then "up" else "down"
    | none => s.runtime.price_direction
  let h := s.price_history ++ [(mid, now)]
  let h := if h.length > PRICE_HISTORY_LEN then h.drop (h.length - PRICE_HISTORY_LEN) else h
  { s with
    runtime := { s.runtime with
      current_ask := t.ask, current_bid := t.bid, price_direction := dir
      current_price := mid }
    price_history := h
    last_update_ts := ts }

/-- Pipeline step 3, reconciliation: `update_exec_stats` followed by the
conflict re-check (`if rt.error_status: return WAIT with error`). -/
def phReconcile (s : SystemState) (t : TickData) (ts : String) :
    SystemState × Option Action :=
  let s' := update_exec_stats s t ts
  if s'.runtime.error_status ≠ "" then
    (s', some (Action.wait (some s'.runtime.error_status)))
  else (s', none)

/-- Priority 1: pop one pending administrative action and emit CLOSE_ALL
with the matching session comment (`"server"` as the generic default). -/
def phPending (s : SystemState) : SystemState × Option Action :=
  match s.runtime.pending_actions with
  | [] => (s, none)
  | a :: rest =>
    let s1 := { s with runtime := { s.runtime with pending_actions := rest } }
    let cmt :=
      if pyIn "BUY" a then s1.runtime.buy_id
      else if pyIn "SELL" a then s1.runtime.sell_id
      else "server"
    (s1, some (Action.closeAll cmt))

/-- Priority 1.5 (buy): closing-phase confirmation monitor. -/
def phBuyClosing (s : SystemState) (t : TickData) : SystemState × Option Action :=
  if s.runtime.buy_is_closing then
    if count_active_trades t s.runtime.buy_id = 0 then
      let mid := (t.ask + t.bid) / 2
      let rt := { s.runtime with
        buy_is_closing := false, buy_exec_map := [], buy_hedge_triggered := false }
      let rt :=
        if rt.cyclic_on then { rt with buy_id := "", buy_start_ref := mid }
        else { rt with buy_on := false, buy_id := "", buy_start_ref := 0 }
      ({ s with runtime := rt }, some (Action.wait none))
    else (s, some (Action.closeAll s.runtime.buy_id))
  else (s, none)

/-- Priority 1.5 (sell): closing-phase confirmation monitor. -/
def phSellClosing (s : SystemState) (t : TickData) : SystemState × Option Action :=
  if s.runtime.sell_is_closing then
    if count_active_trades t s.runtime.sell_id = 0 then
      let mid := (t.ask + t.bid) / 2
      let rt := { s.runtime with
        sell_is_closing := false, sell_exec_map := [], sell_hedge_triggered := false }
      let rt :=
        if rt.cyclic_on then { rt with sell_id := "", sell_start_ref := mid }
        else { rt with sell_on := false, sell_id := "", sell_start_ref := 0 }
      ({ s with runtime := rt }, some (Action.wait none))
    else (s, some (Action.closeAll s.runtime.sell_id))
  else (s, none)

/-- Priority 1.8 (buy losing side): the IronClad hedge monitor.  On a
drawdown breach it latches `buy_hedge_triggered` and, if the sell side
is not closing, deploys the counter-volume: Scenario A force-starts a
fresh sell session (replacing `rows_sell` with the single hedge row),
Scenario B appends a dynamically-gapped row to the running session. -/
def phBuyHedge (s : SystemState) (t : TickData) (now : ℚ) (ts : String)
    (seedS : String) : SystemState × Option Action :=
  if s.runtime.buy_on = true ∧ s.runtime.buy_id ≠ "" ∧
      s.runtime.buy_hedge_triggered = false ∧
      s.settings.buy_hedge_value > 0 ∧ s.runtime.buy_is_closing = false then
    let buy_positions := t.positions.filter
      (fun p => pyIn s.runtime.buy_id p.comment)
    if buy_positions ≠ [] then
      let total_buy_profit := (buy_positions.map (fun p => p.profit)).sum
      let loss_threshold := -1 * s.settings.buy_hedge_value
      if total_buy_profit ≤ loss_threshold then
        let rt1 := { s.runtime with buy_hedge_triggered := true }
        let hedge_lots := (buy_positions.map (fun p => p.volume)).sum
        if rt1.sell_is_closing = false then
          if rt1.sell_on = false ∨ rt1.sell_id = "" ∨ rt1.sell_exec_map.length = 0 then
            let newId := get_hash "sell" seedS
            let rt2 := { rt1 with
              sell_id := newId, sell_start_ref := t.bid, sell_exec_map := []
              sell_on := true, sell_waiting_limit := false }
            let st2 := { s.settings with
              rows_sell := [{ index := 0, dollar := 0, lots := hedge_lots, alert := true }] }
            let rt3 := { rt2 with
              sell_exec_map := mapInsert rt2.sell_exec_map 0
                { index := 0, entry_price := t.bid, lots := hedge_lots, profit := 0
                  timestamp := ts, cumulative_lots := 0, cumulative_profit := 0 }
              sell_last_order_sent_ts := now }
            ({ s with runtime := rt3, settings := st2 },
              some (Action.openOrder "SELL" hedge_lots (newId ++ "_idx0") true))
          else
            let new_idx := if rt1.sell_exec_map = [] then 0 else mapMaxKey rt1.sell_exec_map + 1
            let last_price := get_last_executed_price { s with runtime := rt1 } "sell"
            let new_dollar_gap := |t.bid - last_price|
            let st2 := { s.settings with
              rows_sell := s.settings.rows_sell ++
                [{ index := (new_idx : Int), dollar := new_dollar_gap
                   lots := hedge_lots, alert := true }] }
            let rt3 := { rt1 with
              sell_exec_map := mapInsert rt1.sell_exec_map new_idx
                { index := (new_idx : Int), entry_price := t.bid, lots := hedge_lots
                  profit := 0, timestamp := ts
                  cumulative_lots := 0, cumulative_profit := 0 }
              sell_last_order_sent_ts := now }
            ({ s with runtime := rt3, settings := st2 },
              some (Action.openOrder "SELL" hedge_lots
                (rt1.sell_id ++ "_idx" ++ toString new_idx) true))
        else ({ s with runtime := rt1 }, none)
      else (s, none)
    else (s, none)
  else (s, none)

/-- Priority 1.8 (sell losing side): mirror of `phBuyHedge`, deploying
the counter-volume on the buy side at the current ask. -/
def phSellHedge (s : SystemState) (t : TickData) (now : ℚ) (ts : String)
    (seedB : String) : SystemState × Option Action :=
  if s.runtime.sell_on = true ∧ s.runtime.sell_id ≠ "" ∧
      s.runtime.sell_hedge_triggered = false ∧
      s.settings.sell_hedge_value > 0 ∧ s.runtime.sell_is_closing = false then
    let sell_positions := t.positions.filter
      (fun p => pyIn s.runtime.sell_id p.comment)
    if sell_positions ≠ [] then
      let total_sell_profit := (sell_positions.map (fun p => p.profit)).sum
      let loss_threshold := -1 * s.settings.sell_hedge_value
      if total_sell_profit ≤ loss_threshold then
        let rt1 := { s.runtime with sell_hedge_triggered := true }
        let hedge_lots := (sell_positions.map (fun p => p.volume)).sum
        if rt1.buy_is_closing = false then
          if rt1.buy_on = false ∨ rt1.buy_id = "" ∨ rt1.buy_exec_map.length = 0 then
            let newId := get_hash "buy" seedB
            let rt2 := { rt1 with
              buy_id := newId, buy_start_ref := t.ask, buy_exec_map := []
              buy_on := true, buy_waiting_limit := false }
            let st2 := { s.settings with
              rows_buy := [{ index := 0, dollar := 0, lots := hedge_lots, alert := true }] }
            let rt3 := { rt2 with
              buy_exec_map := mapInsert rt2.buy_exec_map 0
                { index := 0, entry_price := t.ask, lots := hedge_lots, profit := 0
                  timestamp := ts, cumulative_lots := 0, cumulative_profit := 0 }
              buy_last_order_sent_ts := now }
            ({ s with runtime := rt3, settings := st2 },
              some (Action.openOrder "BUY" hedge_lots (newId ++ "_idx0") true))
          else
            let new_idx := if rt1.buy_exec_map = [] then 0 else mapMaxKey rt1.buy_exec_map + 1
            let last_price := get_last_executed_price { s with runtime := rt1 } "buy"
            let new_dollar_gap := |t.ask - last_price|
            let st2 := { s.settings with
              rows_buy := s.settings.rows_buy ++
                [{ index := (new_idx : Int), dollar := new_dollar_gap
                   lots := hedge_lots, alert := true }] }
            let rt3 := { rt1 with
              buy_exec_map := mapInsert rt1.buy_exec_map new_idx
                { index := (new_idx : Int), entry_price := t.ask, lots := hedge_lots
                  profit := 0, timestamp := ts
                  cumulative_lots := 0, cumulative_profit := 0 }
              buy_last_order_sent_ts := now }
            ({ s with runtime := rt3, settings := st2 },
              some (Action.openOrder "BUY" hedge_lots
                (rt1.buy_id ++ "_idx" ++ toString new_idx) true))
        else ({ s with runtime := rt1 }, none)
      else (s, none)
    else (s, none)
  else (s, none)

/-- Priority 2 (buy): take-profit check; on trigger set
`buy_is_closing` and emit CLOSE_ALL for the buy session. -/
def phTpBuy (s : SystemState) (t : TickData) : SystemState × Option Action :=
  if s.runtime.buy_id ≠ "" then
    if check_tp_buy s t = 1 then
      ({ s with runtime := { s.runtime with buy_is_closing := true } },
        some (Action.closeAll s.runtime.buy_id))
    else (s, none)
  else (s, none)

/-- Priority 2 (sell): take-profit check; on trigger set
`sell_is_closing` and emit CLOSE_ALL for the sell session. -/
def phTpSell (s : SystemState) (t : TickData) : SystemState × Option Action :=
  if s.runtime.sell_id ≠ "" then
    if check_tp_sell s t = 1 then
      ({ s with runtime := { s.runtime with sell_is_closing := true } },
        some (Action.closeAll s.runtime.sell_id))
    else (s, none)
  else (s, none)

/-- Priority 3 (buy): external-close detection with the 5-second grace
period.  A silent re-sync: it only mutates the state, never emits. -/
def phExtCloseBuy (s : SystemState) (t : TickData) (now : ℚ) : SystemState :=
  if s.runtime.buy_id ≠ "" ∧ s.runtime.buy_exec_map.length > 0 ∧
      s.runtime.buy_is_closing = false ∧
      now - s.runtime.buy_last_order_sent_ts ≥ EXTERNAL_CLOSE_GRACE_PERIOD then
    if count_active_trades t s.runtime.buy_id = 0 then
      let mid := (t.ask + t.bid) / 2
      if s.runtime.cyclic_on then
        { s with runtime := { s.runtime with
            buy_id := "", buy_exec_map := [], buy_start_ref := mid
            buy_hedge_triggered := false } }
      else
        { s with runtime := { s.runtime with
            buy_on := false, buy_id := "", buy_exec_map := []
            buy_hedge_triggered := false } }
    else s
  else s

/-- Priority 3 (sell): external-close detection with the 5-second grace
period.  A silent re-sync: it only mutates the state, never emits. -/
def phExtCloseSell (s : SystemState) (t : TickData) (now : ℚ) : SystemState :=
  if s.runtime.sell_id ≠ "" ∧ s.runtime.sell_exec_map.length > 0 ∧
      s.runtime.sell_is_closing = false ∧
      now - s.runtime.sell_last_order_sent_ts ≥ EXTERNAL_CLOSE_GRACE_PERIOD then
    if count_active_trades t s.runtime.sell_id = 0 then
      let mid := (t.ask + t.bid) / 2
      if s.runtime.cyclic_on then
        { s with runtime := { s.runtime with
            sell_id := "", sell_exec_map := [], sell_start_ref := mid
            sell_hedge_triggered := false } }
      else
        { s with runtime := { s.runtime with
            sell_on := false, sell_id := "", sell_exec_map := []
            sell_hedge_triggered := false } }
    else s
  else s

/-- Priority 4 (buy): elastic grid accumulation — session mint, limit
anchoring, and the next-layer trigger check. -/
def phAccumBuy (s : SystemState) (t : TickData) (now : ℚ) (ts : String)
    (seedB : String) : SystemState × Option Action :=
  if s.runtime.buy_on = true ∧ s.runtime.buy_is_closing = false ∧
      s.runtime.buy_hedge_triggered = false then
    let rt :=
      if s.runtime.buy_id = "" then
        { s.runtime with
          buy_id := get_hash "buy" seedB
          buy_exec_map := []
          buy_start_ref :=
            if s.settings.buy_limit_price > 0 then s.settings.buy_limit_price else t.ask
          buy_waiting_limit := if s.settings.buy_limit_price > 0 then true else false }
      else s.runtime
    if rt.buy_waiting_limit then
      if t.ask ≤ s.settings.buy_limit_price then
        ({ s with runtime :=
            { rt with buy_waiting_limit := false, buy_start_ref := t.ask } }, none)
      else ({ s with runtime := rt }, none)
    else
      let idx := rt.buy_exec_map.length
      if idx < s.settings.rows_buy.length then
        let row := s.settings.rows_buy.getD idx dfltRow
        if row.dollar ≤ 0 ∨ row.lots ≤ 0 then
          ({ s with runtime := rt }, some (Action.wait none))
        else
          let target := calculate_grid_level_price { s with runtime := rt } "buy" idx
          if t.ask ≤ target then
            let rt2 := { rt with
              buy_exec_map := mapInsert rt.buy_exec_map idx
                { index := (idx : Int), entry_price := t.ask, lots := row.lots
                  profit := 0, timestamp := ts
                  cumulative_lots := 0, cumulative_profit := 0 }
              buy_last_order_sent_ts := now }
            ({ s with runtime := rt2 },
              some (Action.openOrder "BUY" row.lots
                (rt.buy_id ++ "_idx" ++ toString idx) row.alert))
          else ({ s with runtime := rt }, none)
      else ({ s with runtime := rt }, none)
  else (s, none)

/-- Priority 5 (sell): elastic grid accumulation, mirror of
`phAccumBuy` against the bid and the sell geometry. -/
def phAccumSell (s : SystemState) (t : TickData) (now : ℚ) (ts : String)
    (seedS : String) : SystemState × Option Action :=
  if s.runtime.sell_on = true ∧ s.runtime.sell_is_closing = false ∧
      s.runtime.sell_hedge_triggered = false then
    let rt :=
      if s.runtime.sell_id = "" then
        { s.runtime with
          sell_id := get_hash "sell" seedS
          sell_exec_map := []
          sell_start_ref :=
            if s.settings.sell_limit_price > 0 then s.settings.sell_limit_price else t.bid
          sell_waiting_limit := if s.settings.sell_limit_price > 0 then true else false }
      else s.runtime
    if rt.sell_waiting_limit then
      if t.bid ≥ s.settings.sell_limit_price then
        ({ s with runtime :=
            { rt with sell_waiting_limit := false, sell_start_ref := t.bid } }, none)
      else ({ s with runtime := rt }, none)
    else
      let idx := rt.sell_exec_map.length
      if idx < s.settings.rows_sell.length then
        let row := s.settings.rows_sell.getD idx dfltRow
        if row.dollar ≤ 0 ∨ row.lots ≤ 0 then
          ({ s with runtime := rt }, some (Action.wait none))
        else
          let target := calculate_grid_level_price { s with runtime := rt } "sell" idx
          if t.bid ≥ target then
            let rt2 := { rt with
              sell_exec_map := mapInsert rt.sell_exec_map idx
                { index := (idx : Int), entry_price := t.bid, lots := row.lots
                  profit := 0, timestamp := ts
                  cumulative_lots := 0, cumulative_profit := 0 }
              sell_last_order_sent_ts := now }
            ({ s with runtime := rt2 },
              some (Action.openOrder "SELL" row.lots
                (rt.sell_id ++ "_idx" ++ toString idx) row.alert))
          else ({ s with runtime := rt }, none)
      else ({ s with runtime := rt }, none)
  else (s, none)

/-- Default action of the pipeline: a phase result that produced no
action becomes WAIT. -/
def finish (r : SystemState × Option Action) : SystemState × Action :=
  match r with
  | (sf, some a) => (sf, a)
  | (sf, none) => (sf, Action.wait none)

/-- `handle_tick`: the full prioritized decision pipeline for one tick.
`now` is the monotonic clock, `ts` the wall-clock ISO stamp, and
`seedB` / `seedS` the entropy for a buy / sell session mint. -/
def handle_tick (s : SystemState) (t : TickData) (now : ℚ) (ts : String)
    (seedB seedS : String) : SystemState × Action :=
  match phErrorGate s with
  | (s0, some a) => (s0, a)
  | (s0, none) =>
    let s1 := phMarket s0 t now ts
    let r := phReconcile s1 t ts
    let r := andThen r (fun s => phPending s)
    let r := andThen r (fun s => phBuyClosing s t)
    let r := andThen r (fun s => phSellClosing s t)
    let r := andThen r (fun s => phBuyHedge s t now ts seedS)
    let r := andThen r (fun s => phSellHedge s t now ts seedB)
    let r := andThen r (fun s => phTpBuy s t)
    let r := andThen r (fun s => phTpSell s t)
    let r := andThen r (fun s => (phExtCloseBuy s t now, none))
    let r := andThen r (fun s => (phExtCloseSell s t now, none))
    let r := andThen r (fun s => phAccumBuy s t now ts seedB)
    let r := andThen r (fun s => phAccumSell s t now ts seedS)
    finish r

/-- `{r.index: r for r in rows}` lookup: the last row with the index
wins, as in a Python dict comprehension. -/
def rowsDict (rows : List GridRow) (i : Int) : Option GridRow :=
  rows.reverse.find? (fun r => r.index = i)

/-- The layer-merge loop of `update_settings` for one side: drop
non-positive rows, and for a row whose index is live in the exec map and
present in the current table keep the stored `gap`/`volume` and take
only the new `alert`. -/
def mergeRows (cur : List GridRow) (em : ExecMap) : List GridRow → List GridRow
  | [] => []
  | nr :: rest =>
    if nr.dollar ≤ 0 ∨ nr.lots ≤ 0 then mergeRows cur em rest
    else if (0 ≤ nr.index ∧ mapHasKey em nr.index.toNat = true) ∧
        (rowsDict cur nr.index).isSome then
      (match rowsDict cur nr.index with
       | some old => { index := old.index, dollar := old.dollar
                       lots := old.lots, alert := nr.alert }
       | none => nr) :: mergeRows cur em rest
    else nr :: mergeRows cur em rest

/-- `update_settings(new)`: validation, scalar updates, and the
layer-merge rule for both sides. -/
def update_settings (s : SystemState) (new : UserSettings) :
    Except String SystemState :=
  if new.buy_tp_value < 0 ∨ new.sell_tp_value < 0 then
    Except.error "TP values cannot be negative"
  else if new.buy_hedge_value < 0 ∨ new.sell_hedge_value < 0 then
    Except.error "Hedge values cannot be negative"
  else
    Except.ok
      { s with settings :=
        { buy_limit_price := new.buy_limit_price
          sell_limit_price := new.sell_limit_price
          buy_tp_type := new.buy_tp_type, buy_tp_value := new.buy_tp_value
          sell_tp_type := new.sell_tp_type, sell_tp_value := new.sell_tp_value
          buy_hedge_value := new.buy_hedge_value
          sell_hedge_value := new.sell_hedge_value
          rows_buy := mergeRows s.settings.rows_buy s.runtime.buy_exec_map new.rows_buy
          rows_sell := mergeRows s.settings.rows_sell s.runtime.sell_exec_map new.rows_sell } }

/-- `control(...)`: the switch / cyclic / emergency command surface. -/
def control (s : SystemState)
    (buy_switch sell_switch cyclic emergency_close : Option Bool) : SystemState :=
  if emergency_close = some true then
    { s with runtime := { s.runtime with
        buy_on := false, sell_on := false, cyclic_on := false
        buy_is_closing := true, sell_is_closing := true
        pending_actions := s.runtime.pending_actions ++ ["CLOSE_ALL_EMERGENCY"]
        error_status := "" } }
  else
    let rt := s.runtime
    let rt :=
      match buy_switch with
      | none => rt
      | some b =>
        let rt :=
          if rt.buy_on = true ∧ b = false then
            { rt with pending_actions := rt.pending_actions ++ ["CLOSE_ALL_BUY"]
                      buy_is_closing := true }
          else rt
        { rt with buy_on := b }
    let rt :=
      match sell_switch with
      | none => rt
      | some b =>
        let rt :=
          if rt.sell_on = true ∧ b = false then
            { rt with pending_actions := rt.pending_actions ++ ["CLOSE_ALL_SELL"]
                      sell_is_closing := true }
          else rt
        { rt with sell_on := b }
    let rt :=
      match cyclic with
      | none => rt
      | some c => { rt with cyclic_on := c }
    { s with runtime := rt }

/-- One external interaction with the engine: a tick or a command. -/
inductive Cmd where
  | tick (t : TickData) (now : ℚ) (ts : String) (seedB seedS : String)
  | ctrl (b se c e : Option Bool)
  | setts (ns : UserSettings)

/-- The state transition of one interaction (a rejected settings update
leaves the state unchanged). -/
def stepCmd (s : SystemState) (c : Cmd) : SystemState :=
  match c with
  | Cmd.tick t now ts sb ss => (handle_tick s t now ts sb ss).1
  | Cmd.ctrl b se c e => control s b se c e
  | Cmd.setts ns =>
    match update_settings s ns with
    | Except.ok s' => s'
    | Except.error _ => s

/-- States reachable from the fresh-start state by ticks and commands. -/
def Reachable (s : SystemState) : Prop :=
  ∃ l : List Cmd, s = l.foldl stepCmd initState

/-! ### General lemmas about the pipeline combinator -/

theorem andThen_none (s : SystemState)
    (f : SystemState → SystemState × Option Action) :
    andThen (s, none) f = f s := rfl

theorem andThen_some (s : SystemState) (a : Action)
    (f : SystemState → SystemState × Option Action) :
    andThen (s, some a) f = (s, some a) := rfl

/-! ### C7: grid geometry -/

theorem foldl_sub_gaps (rows : List GridRow) (ref : ℚ) :
    ∀ n, n ≤ rows.length →
      (List.range n).foldl
        (fun r i => if i < rows.length then r - (rows.getD i dfltRow).dollar else r)
        ref
        = ref - ((rows.take n).map (fun x => x.dollar)).sum := by
  intro n
  induction n with
  | zero => intro _; simp
  | succ n ih =>
    intro h
    have hn : n < rows.length := Nat.lt_of_succ_le h
    rw [List.range_succ, List.foldl_append, ih (Nat.le_of_lt hn)]
    simp only [List.foldl_cons, List.foldl_nil, if_pos hn]
    rw [List.take_succ, List.map_append, List.sum_append]
    have hg : rows[n]? = some (rows.getD n dfltRow) := by
      rw [List.getElem?_eq_getElem hn, List.getD_eq_getElem?_getD,
        List.getElem?_eq_getElem hn]
      rfl
    rw [hg]
    simp
    ring

theorem foldl_add_gaps (rows : List GridRow) (ref : ℚ) :
    ∀ n, n ≤ rows.length →
      (List.range n).foldl
        (fun r i => if i < rows.length then r + (rows.getD i dfltRow).dollar else r)
        ref
        = ref + ((rows.take n).map (fun x => x.dollar)).sum := by
  intro n
  induction n with
  | zero => intro _; simp
  | succ n ih =>
    intro h
    have hn : n < rows.length := Nat.lt_of_succ_le h
    rw [List.range_succ, List.foldl_append, ih (Nat.le_of_lt hn)]
    simp only [List.foldl_cons, List.foldl_nil, if_pos hn]
    rw [List.take_succ, List.map_append, List.sum_append]
    have hg : rows[n]? = some (rows.getD n dfltRow) := by
      rw [List.getElem?_eq_getElem hn, List.getD_eq_getElem?_getD,
        List.getElem?_eq_getElem hn]
      rfl
    rw [hg]
    simp
    ring

/-- C7 (confirmed): for every state, side, and layer index `i` within
the layer table, the computed trigger price of layer `i` is the anchor
minus (buy) or plus (sell) the sum of the gaps of layers `0..i`. -/
theorem c7_grid_trigger_price (s : SystemState) (i : Nat) :
    (i < s.settings.rows_buy.length →
      calculate_grid_level_price s "buy" i =
        s.runtime.buy_start_ref -
          ((s.settings.rows_buy.take (i + 1)).map (fun r => r.dollar)).sum)
    ∧ (i < s.settings.rows_sell.length →
      calculate_grid_level_price s "sell" i =
        s.runtime.sell_start_ref +
          ((s.settings.rows_sell.take (i + 1)).map (fun r => r.dollar)).sum) := by
  constructor
  · intro h
    unfold calculate_grid_level_price
    rw [if_pos rfl]
    exact foldl_sub_gaps _ _ _ (Nat.succ_le_of_lt h)
  · intro h
    unfold calculate_grid_level_price
    rw [if_neg (by decide)]
    exact foldl_add_gaps _ _ _ (Nat.succ_le_of_lt h)

/-- State used by the C7 witness: anchor 100 each side, two-layer
tables with gaps 1 and 3/2. -/
def c7WitnessState : SystemState :=
  { initState with
    runtime := { initRuntime with buy_start_ref := 100, sell_start_ref := 200 }
    settings := { initSettings with
      rows_buy := [{ index := 0, dollar := 1, lots := 1, alert := false },
                   { index := 1, dollar := 3/2, lots := 1, alert := false }]
      rows_sell := [{ index := 0, dollar := 2, lots := 1, alert := false },
                    { index := 1, dollar := 5, lots := 1, alert := false }] } }

/-- Witness for C7 at layer index 1 of a concrete two-layer table. -/
theorem c7_grid_trigger_price_witness :
    calculate_grid_level_price c7WitnessState "buy" 1 =
        c7WitnessState.runtime.buy_start_ref -
          ((c7WitnessState.settings.rows_buy.take 2).map (fun r => r.dollar)).sum
    ∧ calculate_grid_level_price c7WitnessState "sell" 1 =
        c7WitnessState.runtime.sell_start_ref +
          ((c7WitnessState.settings.rows_sell.take 2).map (fun r => r.dollar)).sum :=
  ⟨(c7_grid_trigger_price c7WitnessState 1).1 (by decide),
   (c7_grid_trigger_price c7WitnessState 1).2 (by decide)⟩

/-! ### C8: the external-close grace window -/

/-- C8 (confirmed): the external-close re-sync of a side never fires
while `now − last_order_sent_ts` is strictly below the 5-second grace
period (the phase leaves the state untouched), and whenever the window
is open (difference ≥ 5 s) with a live session, a non-empty exec map,
not closing, and zero broker positions under the session id, the
re-sync fires and clears the session. -/
theorem c8_external_close_window (s : SystemState) (t : TickData) (now : ℚ) :
    (now - s.runtime.buy_last_order_sent_ts < EXTERNAL_CLOSE_GRACE_PERIOD →
      phExtCloseBuy s t now = s)
    ∧ (now - s.runtime.sell_last_order_sent_ts < EXTERNAL_CLOSE_GRACE_PERIOD →
      phExtCloseSell s t now = s)
    ∧ (s.runtime.buy_id ≠ "" → s.runtime.buy_exec_map.length > 0 →
       s.runtime.buy_is_closing = false →
       now - s.runtime.buy_last_order_sent_ts ≥ EXTERNAL_CLOSE_GRACE_PERIOD →
       count_active_trades t s.runtime.buy_id = 0 →
       (phExtCloseBuy s t now).runtime.buy_id = "" ∧
       (phExtCloseBuy s t now).runtime.buy_exec_map = [])
    ∧ (s.runtime.sell_id ≠ "" → s.runtime.sell_exec_map.length > 0 →
       s.runtime.sell_is_closing = false →
       now - s.runtime.sell_last_order_sent_ts ≥ EXTERNAL_CLOSE_GRACE_PERIOD →
       count_active_trades t s.runtime.sell_id = 0 →
       (phExtCloseSell s t now).runtime.sell_id = "" ∧
       (phExtCloseSell s t now).runtime.sell_exec_map = []) := by
  refine ⟨?_, ?_, ?_, ?_⟩
  · intro hlt
    unfold phExtCloseBuy
    rw [if_neg]
    intro hc
    exact absurd hc.2.2.2 (not_le.mpr hlt)
  · intro hlt
    unfold phExtCloseSell
    rw [if_neg]
    intro hc
    exact absurd hc.2.2.2 (not_le.mpr hlt)
  · intro h1 h2 h3 h4 h5
    unfold phExtCloseBuy
    rw [if_pos ⟨h1, h2, h3, h4⟩, if_pos h5]
    by_cases hc : s.runtime.cyclic_on <;> simp [hc]
  · intro h1 h2 h3 h4 h5
    unfold phExtCloseSell
    rw [if_pos ⟨h1, h2, h3, h4⟩, if_pos h5]
    by_cases hc : s.runtime.cyclic_on <;> simp [hc]

/-- Concrete state for the C8 witness: live sessions on both sides with
one executed layer each and `last_order_sent_ts = 0`. -/
def c8WitnessState : SystemState :=
  { initState with
    runtime := { initRuntime with
      buy_id := "buy_aaaaaaaa"
      sell_id := "sell_dddddddd"
      buy_exec_map := [(0, dfltStats)]
      sell_exec_map := [(0, dfltStats)] } }

/-- Tick used by the C8 witness: the broker reports no positions. -/
def c8WitnessTick : TickData :=
  { account_id := "a", equity := 1, balance := 1, symbol := "X"
    ask := 1, bid := 1, positions := [] }

/-- Witness for C8: at a 4.999-second difference both phases wait; at
5.001 seconds both re-sync and clear the session. -/
theorem c8_external_close_window_witness :
    phExtCloseBuy c8WitnessState c8WitnessTick (4999 / 1000) = c8WitnessState
    ∧ phExtCloseSell c8WitnessState c8WitnessTick (4999 / 1000) = c8WitnessState
    ∧ (phExtCloseBuy c8WitnessState c8WitnessTick (5001 / 1000)).runtime.buy_id = ""
    ∧ (phExtCloseSell c8WitnessState c8WitnessTick (5001 / 1000)).runtime.sell_id = "" :=
  ⟨(c8_external_close_window c8WitnessState c8WitnessTick (4999 / 1000)).1
      (by norm_num [c8WitnessState, initState, initRuntime, EXTERNAL_CLOSE_GRACE_PERIOD]),
   (c8_external_close_window c8WitnessState c8WitnessTick (4999 / 1000)).2.1
      (by norm_num [c8WitnessState, initState, initRuntime, EXTERNAL_CLOSE_GRACE_PERIOD]),
   ((c8_external_close_window c8WitnessState c8WitnessTick (5001 / 1000)).2.2.1
      (by decide) (by decide) (by decide)
      (by norm_num [c8WitnessState, initState, initRuntime, EXTERNAL_CLOSE_GRACE_PERIOD])
      (by decide)).1,
   ((c8_external_close_window c8WitnessState c8WitnessTick (5001 / 1000)).2.2.2
      (by decide) (by decide) (by decide)
      (by norm_num [c8WitnessState, initState, initRuntime, EXTERNAL_CLOSE_GRACE_PERIOD])
      (by decide)).1⟩

/-! ### C1: which position comments the reconciler ignores -/

theorem absorb_filter (buyId sellId ts : String) (ps : List Position) :
    ∀ bm sm,
      absorb buyId sellId ts (ps.filter (fun p => tradeIdMatch p.comment)) bm sm
        = absorb buyId sellId ts ps bm sm := by
  induction ps with
  | nil => intro bm sm; rfl
  | cons p ps ih =>
    intro bm sm
    cases h : tradeIdMatch p.comment with
    | false =>
      rw [List.filter_cons_of_neg (by simp [h])]
      rw [ih bm sm]
      conv_rhs => rw [absorb]
      rw [if_pos h]
    | true =>
      rw [List.filter_cons_of_pos (by simp [h])]
      conv_lhs => rw [absorb]
      conv_rhs => rw [absorb]
      rw [if_neg (show ¬ (tradeIdMatch p.comment = false) by simp [h]),
        if_neg (show ¬ (tradeIdMatch p.comment = false) by simp [h])]
      by_cases hb : pyIn "buy_" p.comment = true ∧ (buyId = "" ∨ pyIn buyId p.comment = false)
      · rw [if_pos hb, if_pos hb]
      · rw [if_neg hb, if_neg hb]
        by_cases hs : pyIn "sell_" p.comment = true ∧ (sellId = "" ∨ pyIn sellId p.comment = false)
        · rw [if_pos hs, if_pos hs]
        · rw [if_neg hs, if_neg hs]
          exact ih _ _

/-- C1 amended (corrected): the reconciler ignores exactly the
positions whose comments fail the code's pattern
`^(sell|buy)_[0-9a-fA-F]{8}_idx\d+$` — which accepts uppercase hex in
the 8-character hash.  Filtering those positions out of the tick leaves
`update_exec_stats` unchanged: they write no exec_map entry and set no
`error_status`. -/
theorem c1_reconciler_ignores_nonmatching (s : SystemState) (t : TickData)
    (ts : String) :
    update_exec_stats s
        { t with positions := t.positions.filter (fun p => tradeIdMatch p.comment) } ts
      = update_exec_stats s t ts := by
  unfold update_exec_stats
  rw [absorb_filter]

/-- State for the C1 counterexample: an active lowercase buy session. -/
def c1State : SystemState :=
  { initState with
    runtime := { initRuntime with buy_id := "buy_aaaaaaaa" } }

/-- Tick for the C1 counterexample: one position whose comment hash is
uppercase hex. -/
def c1Tick : TickData :=
  { account_id := "a", equity := 0, balance := 0, symbol := "X"
    ask := 0, bid := 0
    positions := [{ ticket := 7, symbol := "X", ptype := "BUY", volume := 1
                    price := 1, profit := 0, comment := "buy_BBBBBBBB_idx0" }] }

/-- C1 counterexample: the comment `buy_BBBBBBBB_idx0` does not match
the lowercase grammar, yet the reconciler does NOT ignore it — the
position matches the code's case-insensitive pattern and sets
`error_status` (the claim asserts no error_status would be written). -/
theorem c1_counterexample :
    tradeIdMatch "buy_BBBBBBBB_idx0" = true
    ∧ (update_exec_stats c1State c1Tick "T").runtime.error_status
        = "CRITICAL: Identity Conflict. Unknown Buy trade 7 detected." := by
  constructor
  · rfl
  · with_unfolding_all rfl

/-! ### C3: the error gate -/

/-- C3 (confirmed): while `error_status` is non-empty every tick reply
is WAIT carrying the error and the state (runtime, settings, price
history) is returned untouched; and when reconciliation itself sets
`error_status`, the reply is WAIT with that error as well. -/
theorem c3_error_gate (s : SystemState) (t : TickData) (now : ℚ)
    (ts sB sS : String) :
    (s.runtime.error_status ≠ "" →
      handle_tick s t now ts sB sS = (s, Action.wait (some s.runtime.error_status)))
    ∧ (∀ s2, s.runtime.error_status = "" →
        update_exec_stats (phMarket s t now ts) t ts = s2 →
        s2.runtime.error_status ≠ "" →
        handle_tick s t now ts sB sS = (s2, Action.wait (some s2.runtime.error_status))) := by
  constructor
  · intro herr
    have hg : phErrorGate s = (s, some (Action.wait (some s.runtime.error_status))) := by
      unfold phErrorGate
      rw [if_pos herr]
    unfold handle_tick
    rw [hg]
  · intro s2 herr hupd herr2
    have hg : phErrorGate s = (s, none) := by
      unfold phErrorGate
      rw [if_neg (by simp [herr])]
    have hr : phReconcile (phMarket s t now ts) t ts
        = (s2, some (Action.wait (some s2.runtime.error_status))) := by
      unfold phReconcile
      rw [hupd, if_pos herr2]
    unfold handle_tick
    rw [hg]
    simp only [hr, andThen_some, finish]

/-- State for the C3 witness: a latched error status. -/
def c3ErrState : SystemState :=
  { initState with
    runtime := { initRuntime with error_status := "CRITICAL: test lock" } }

/-- Tick for the C3 witness: one position whose comment carries a buy
session prefix that conflicts with the (inactive) buy session. -/
def c3ConflictTick : TickData :=
  { account_id := "a", equity := 0, balance := 0, symbol := "X"
    ask := 0, bid := 0
    positions := [{ ticket := 9, symbol := "X", ptype := "BUY", volume := 1
                    price := 1, profit := 0, comment := "buy_cafecafe_idx0" }] }

/-- Witness for C3: part one at a tick against a latched error (reply
is WAIT with the error, state returned unchanged); part two at a tick
whose position conflicts with the inactive buy session. -/
theorem c3_error_gate_witness :
    handle_tick c3ErrState c3ConflictTick 0 "T" "x" "y"
      = (c3ErrState, Action.wait (some "CRITICAL: test lock"))
    ∧ handle_tick initState c3ConflictTick 0 "T" "x" "y"
      = (update_exec_stats (phMarket initState c3ConflictTick 0 "T") c3ConflictTick "T",
         Action.wait (some (update_exec_stats (phMarket initState c3ConflictTick 0 "T")
             c3ConflictTick "T").runtime.error_status)) :=
  ⟨(c3_error_gate c3ErrState c3ConflictTick 0 "T" "x" "y").1 (by decide),
   (c3_error_gate initState c3ConflictTick 0 "T" "x" "y").2
      (update_exec_stats (phMarket initState c3ConflictTick 0 "T") c3ConflictTick "T")
      (by decide) rfl
      (by
        have h : (update_exec_stats (phMarket initState c3ConflictTick 0 "T")
            c3ConflictTick "T").runtime.error_status
            = "CRITICAL: Identity Conflict. Unknown Buy trade 9 detected." := by
          with_unfolding_all rfl
        rw [h]
        decide)⟩

/-! ### C9: the emergency-close CLOSE_ALL comment -/

/-- C9 amended (corrected): after an emergency-close command enqueues
`"CLOSE_ALL_EMERGENCY"`, the next tick processed with empty
`error_status` pops it and emits CLOSE_ALL whose comment is the literal
`"server"` (the generic tag of the pending-action dispatcher; it is
distinct from any session id, but it is not the queued string
`"CLOSE_ALL_EMERGENCY"` the claim names). -/
theorem c9_emergency_close_comment (s : SystemState) (t : TickData) (now : ℚ)
    (ts sB sS : String) (rest : List String) :
    ∀ s2, s.runtime.error_status = "" →
      update_exec_stats (phMarket s t now ts) t ts = s2 →
      s2.runtime.error_status = "" →
      s2.runtime.pending_actions = "CLOSE_ALL_EMERGENCY" :: rest →
      handle_tick s t now ts sB sS
        = ({ s2 with runtime := { s2.runtime with pending_actions := rest } },
           Action.closeAll "server") := by
  intro s2 herr hupd herr2 hp
  have hg : phErrorGate s = (s, none) := by
    unfold phErrorGate
    rw [if_neg (by simp [herr])]
  have hr : phReconcile (phMarket s t now ts) t ts = (s2, none) := by
    unfold phReconcile
    rw [hupd, if_neg (by simp [herr2])]
  have h1 : pyIn "BUY" "CLOSE_ALL_EMERGENCY" = false := by with_unfolding_all rfl
  have h2 : pyIn "SELL" "CLOSE_ALL_EMERGENCY" = false := by with_unfolding_all rfl
  have hpend : phPending s2
      = ({ s2 with runtime := { s2.runtime with pending_actions := rest } },
         some (Action.closeAll "server")) := by
    unfold phPending
    rw [hp]
    simp [h1, h2]
  unfold handle_tick
  rw [hg]
  simp only [hr, andThen_none, andThen_some, hpend, finish]

/-- State for the C9 counterexample and witness: one queued emergency
closure. -/
def c9State : SystemState :=
  { initState with
    runtime := { initRuntime with pending_actions := ["CLOSE_ALL_EMERGENCY"] } }

/-- Tick for the C9 counterexample and witness. -/
def c9Tick : TickData :=
  { account_id := "a", equity := 1, balance := 1, symbol := "X"
    ask := 1, bid := 1, positions := [] }

/-- C9 counterexample: the CLOSE_ALL emitted for the queued emergency
entry carries the comment `"server"`, not the literal
`"CLOSE_ALL_EMERGENCY"` the claim asserts. -/
theorem c9_counterexample :
    (handle_tick c9State c9Tick 0 "T" "x" "y").2 = Action.closeAll "server"
    ∧ (handle_tick c9State c9Tick 0 "T" "x" "y").2
        ≠ Action.closeAll "CLOSE_ALL_EMERGENCY" := by
  have h : (handle_tick c9State c9Tick 0 "T" "x" "y").2 = Action.closeAll "server" := by
    with_unfolding_all rfl
  constructor
  · exact h
  · rw [h]
    decide

/-- Witness for the amended C9 theorem at the concrete queued state. -/
theorem c9_emergency_close_comment_witness :
    handle_tick c9State c9Tick 0 "T" "x" "y"
      = ({ update_exec_stats (phMarket c9State c9Tick 0 "T") c9Tick "T" with
            runtime := { (update_exec_stats (phMarket c9State c9Tick 0 "T")
                c9Tick "T").runtime with pending_actions := [] } },
         Action.closeAll "server") :=
  c9_emergency_close_comment c9State c9Tick 0 "T" "x" "y" []
    (update_exec_stats (phMarket c9State c9Tick 0 "T") c9Tick "T")
    (by decide) rfl
    (by with_unfolding_all rfl)
    (by with_unfolding_all rfl)

/-! ### C6: external-close reset in non-cyclic mode -/

/-- C6 amended (corrected): when external-close detection fires for a
side with cyclic mode off, the reset clears the side's `session_id`,
`exec_map`, `hedge_triggered` and `enabled` flag but LEAVES the anchor
price unchanged (it does not zero it), and this path emits no
CLOSE_ALL: the detection phase itself emits nothing, and the
accumulation phases that can still run afterwards never produce a
CLOSE_ALL action. -/
theorem c6_external_close_noncyclic (s : SystemState) (t : TickData) (now : ℚ) :
    (s.runtime.buy_id ≠ "" → s.runtime.buy_exec_map.length > 0 →
     s.runtime.buy_is_closing = false →
     now - s.runtime.buy_last_order_sent_ts ≥ EXTERNAL_CLOSE_GRACE_PERIOD →
     count_active_trades t s.runtime.buy_id = 0 →
     s.runtime.cyclic_on = false →
     phExtCloseBuy s t now
       = { s with runtime := { s.runtime with
             buy_on := false, buy_id := "", buy_exec_map := []
             buy_hedge_triggered := false } }
     ∧ (phExtCloseBuy s t now).runtime.buy_start_ref = s.runtime.buy_start_ref)
    ∧ (s.runtime.sell_id ≠ "" → s.runtime.sell_exec_map.length > 0 →
     s.runtime.sell_is_closing = false →
     now - s.runtime.sell_last_order_sent_ts ≥ EXTERNAL_CLOSE_GRACE_PERIOD →
     count_active_trades t s.runtime.sell_id = 0 →
     s.runtime.cyclic_on = false →
     phExtCloseSell s t now
       = { s with runtime := { s.runtime with
             sell_on := false, sell_id := "", sell_exec_map := []
             sell_hedge_triggered := false } }
     ∧ (phExtCloseSell s t now).runtime.sell_start_ref = s.runtime.sell_start_ref)
    ∧ (∀ s' t' now' ts' sd' c,
        (phAccumBuy s' t' now' ts' sd').2 ≠ some (Action.closeAll c))
    ∧ (∀ s' t' now' ts' sd' c,
        (phAccumSell s' t' now' ts' sd').2 ≠ some (Action.closeAll c)) := by
  refine ⟨?_, ?_, ?_, ?_⟩
  · intro h1 h2 h3 h4 h5 h6
    have hph : phExtCloseBuy s t now
        = { s with runtime := { s.runtime with
              buy_on := false, buy_id := "", buy_exec_map := []
              buy_hedge_triggered := false } } := by
      unfold phExtCloseBuy
      rw [if_pos ⟨h1, h2, h3, h4⟩, if_pos h5, if_neg (by simp [h6])]
    exact ⟨hph, by rw [hph]⟩
  · intro h1 h2 h3 h4 h5 h6
    have hph : phExtCloseSell s t now
        = { s with runtime := { s.runtime with
              sell_on := false, sell_id := "", sell_exec_map := []
              sell_hedge_triggered := false } } := by
      unfold phExtCloseSell
      rw [if_pos ⟨h1, h2, h3, h4⟩, if_pos h5, if_neg (by simp [h6])]
    exact ⟨hph, by rw [hph]⟩
  · intro s' t' now' ts' sd' c
    unfold phAccumBuy
    simp only [apply_ite (Prod.snd (α := SystemState) (β := Option Action))]
    split_ifs <;> simp
  · intro s' t' now' ts' sd' c
    unfold phAccumSell
    simp only [apply_ite (Prod.snd (α := SystemState) (β := Option Action))]
    split_ifs <;> simp

/-- State for the C6 witness: live buy and sell sessions, one executed
layer each, anchors 100 and 200, cyclic off, `last_order_sent_ts 0`. -/
def c6WitnessState : SystemState :=
  { initState with
    runtime := { initRuntime with
      buy_id := "buy_aaaaaaaa"
      sell_id := "sell_dddddddd"
      buy_start_ref := 100
      sell_start_ref := 200
      buy_exec_map := [(0, dfltStats)]
      sell_exec_map := [(0, dfltStats)] } }

/-- Tick for the C6 witness: the broker reports zero positions. -/
def c6WitnessTick : TickData :=
  { account_id := "a", equity := 1, balance := 1, symbol := "X"
    ask := 1, bid := 1, positions := [] }

/-- Witness for C6 at the concrete state: both resets fire at
`now = 10` and the anchors remain 100 and 200. -/
theorem c6_external_close_noncyclic_witness :
    (phExtCloseBuy c6WitnessState c6WitnessTick 10).runtime.buy_start_ref
      = c6WitnessState.runtime.buy_start_ref
    ∧ (phExtCloseSell c6WitnessState c6WitnessTick 10).runtime.sell_start_ref
      = c6WitnessState.runtime.sell_start_ref :=
  ⟨((c6_external_close_noncyclic c6WitnessState c6WitnessTick 10).1
      (by decide) (by decide) (by decide)
      (by norm_num [c6WitnessState, initState, initRuntime, EXTERNAL_CLOSE_GRACE_PERIOD])
      (by decide) (by decide)).2,
   ((c6_external_close_noncyclic c6WitnessState c6WitnessTick 10).2.1
      (by decide) (by decide) (by decide)
      (by norm_num [c6WitnessState, initState, initRuntime, EXTERNAL_CLOSE_GRACE_PERIOD])
      (by decide) (by decide)).2⟩

/-- C6 counterexample: with cyclic off, the external-close reset leaves
the anchor at its old value 100 — the claim asserts it is zeroed.  The
full tick at the same state confirms the emitted action is WAIT (no
CLOSE_ALL) while the session is cleared and disabled. -/
theorem c6_counterexample :
    (phExtCloseBuy c6WitnessState c6WitnessTick 10).runtime.buy_start_ref = 100
    ∧ (phExtCloseBuy c6WitnessState c6WitnessTick 10).runtime.buy_start_ref ≠ 0
    ∧ (handle_tick c6WitnessState c6WitnessTick 10 "T" "x" "y").2 = Action.wait none
    ∧ (handle_tick c6WitnessState c6WitnessTick 10 "T" "x" "y").1.runtime.buy_id = ""
    ∧ (handle_tick c6WitnessState c6WitnessTick 10 "T" "x" "y").1.runtime.buy_on = false
    ∧ (handle_tick c6WitnessState c6WitnessTick 10 "T" "x" "y").1.runtime.buy_start_ref = 100 := by
  refine ⟨by with_unfolding_all rfl, ?_, by with_unfolding_all rfl,
    by with_unfolding_all rfl, by with_unfolding_all rfl, by with_unfolding_all rfl⟩
  rw [show (phExtCloseBuy c6WitnessState c6WitnessTick 10).runtime.buy_start_ref = 100
      from by with_unfolding_all rfl]
  norm_num

/-! ### C5: the layer-merge rule of settings updates -/

theorem mergeRows_mem (cur : List GridRow) (em : ExecMap) (rows : List GridRow) :
    ∀ nr ∈ rows, 0 < nr.dollar → 0 < nr.lots → 0 ≤ nr.index →
      mapHasKey em nr.index.toNat = true →
      ∀ old, rowsDict cur nr.index = some old →
        ({ index := old.index, dollar := old.dollar, lots := old.lots
           alert := nr.alert } : GridRow) ∈ mergeRows cur em rows := by
  induction rows with
  | nil => simp
  | cons r rest ih =>
    intro nr hmem hd hl hi hk old hold
    rcases List.mem_cons.mp hmem with heq | htail
    · subst heq
      unfold mergeRows
      rw [if_neg (by push_neg; exact ⟨hd, hl⟩)]
      rw [if_pos ⟨⟨hi, hk⟩, by rw [hold]; rfl⟩]
      rw [hold]
      exact List.mem_cons_self _ _
    · have htl := ih nr htail hd hl hi hk old hold
      unfold mergeRows
      split_ifs with h1 h2
      · exact htl
      · exact List.mem_cons_of_mem _ htl
      · exact List.mem_cons_of_mem _ htl

/-- C5 amended (corrected): for every accepted settings update and
every row of the submitted table whose gap and volume are positive and
whose index is live in the side's exec map and present in the current
table, the merged table keeps the stored gap and volume and takes only
the new alert flag.  (A row submitted with non-positive gap or volume
is silently dropped BEFORE the freeze rule, so an executed layer
submitted malformed loses its stored row entirely.) -/
theorem c5_settings_merge (s : SystemState) (new : UserSettings)
    (s' : SystemState) :
    update_settings s new = Except.ok s' →
    (∀ nr ∈ new.rows_buy, 0 < nr.dollar → 0 < nr.lots → 0 ≤ nr.index →
      mapHasKey s.runtime.buy_exec_map nr.index.toNat = true →
      ∀ old, rowsDict s.settings.rows_buy nr.index = some old →
        ({ index := old.index, dollar := old.dollar, lots := old.lots
           alert := nr.alert } : GridRow) ∈ s'.settings.rows_buy)
    ∧ (∀ nr ∈ new.rows_sell, 0 < nr.dollar → 0 < nr.lots → 0 ≤ nr.index →
      mapHasKey s.runtime.sell_exec_map nr.index.toNat = true →
      ∀ old, rowsDict s.settings.rows_sell nr.index = some old →
        ({ index := old.index, dollar := old.dollar, lots := old.lots
           alert := nr.alert } : GridRow) ∈ s'.settings.rows_sell) := by
  intro hok
  unfold update_settings at hok
  split_ifs at hok
  have hs' := Except.ok.inj hok
  constructor
  · intro nr hmem hd hl hi hk old hold
    rw [← hs']
    exact mergeRows_mem _ _ _ nr hmem hd hl hi hk old hold
  · intro nr hmem hd hl hi hk old hold
    rw [← hs']
    exact mergeRows_mem _ _ _ nr hmem hd hl hi hk old hold

/-- State for the C5 counterexample and witness: layer 0 of the buy
side is executed and its current row stores gap 1, volume 1. -/
def c5State : SystemState :=
  { initState with
    runtime := { initRuntime with buy_exec_map := [(0, dfltStats)] }
    settings := { initSettings with
      rows_buy := [{ index := 0, dollar := 1, lots := 1, alert := false }] } }

/-- Submitted settings for the C5 counterexample: the executed layer 0
resubmitted with a non-positive gap. -/
def c5BadNew : UserSettings :=
  { initSettings with
    rows_buy := [{ index := 0, dollar := -1, lots := 1, alert := true }] }

/-- C5 counterexample: submitting the executed layer 0 with gap −1 is
accepted, but the row is dropped by the non-positive filter before the
freeze rule applies: the resulting table is empty, so the stored gap
and volume of the executed layer are NOT retained. -/
theorem c5_counterexample :
    mapHasKey c5State.runtime.buy_exec_map 0 = true
    ∧ (update_settings c5State c5BadNew).map (fun x => x.settings.rows_buy)
        = Except.ok [] := by
  constructor
  · with_unfolding_all rfl
  · with_unfolding_all rfl

/-- Submitted settings for the C5 witness: the executed layer 0
resubmitted well-formed with gap 5, volume 7, alert flipped on. -/
def c5GoodNew : UserSettings :=
  { initSettings with
    rows_buy := [{ index := 0, dollar := 5, lots := 7, alert := true }] }

/-- Witness for the amended C5 theorem: the well-formed resubmission of
executed layer 0 keeps the stored gap 1 and volume 1 and takes the new
alert flag. -/
theorem c5_settings_merge_witness :
    ({ index := 0, dollar := 1, lots := 1, alert := true } : GridRow)
      ∈ (match update_settings c5State c5GoodNew with
         | Except.ok x => x
         | Except.error _ => c5State).settings.rows_buy := by
  have hok : update_settings c5State c5GoodNew
      = Except.ok { c5State with settings :=
          { buy_limit_price := c5GoodNew.buy_limit_price
            sell_limit_price := c5GoodNew.sell_limit_price
            buy_tp_type := c5GoodNew.buy_tp_type
            buy_tp_value := c5GoodNew.buy_tp_value
            sell_tp_type := c5GoodNew.sell_tp_type
            sell_tp_value := c5GoodNew.sell_tp_value
            buy_hedge_value := c5GoodNew.buy_hedge_value
            sell_hedge_value := c5GoodNew.sell_hedge_value
            rows_buy := mergeRows c5State.settings.rows_buy
              c5State.runtime.buy_exec_map c5GoodNew.rows_buy
            rows_sell := mergeRows c5State.settings.rows_sell
              c5State.runtime.sell_exec_map c5GoodNew.rows_sell } } := by
    with_unfolding_all rfl
  rw [hok]
  have hmem := (c5_settings_merge c5State c5GoodNew _ hok).1
    { index := 0, dollar := 5, lots := 7, alert := true }
    (by with_unfolding_all decide)
    (by norm_num) (by norm_num) (by norm_num)
    (by with_unfolding_all rfl)
    { index := 0, dollar := 1, lots := 1, alert := false }
    (by with_unfolding_all rfl)
  exact hmem

/-! ### C2: the hedge trigger, Scenario A -/

/-- C2 (confirmed): on a tick where the buy side is enabled with a
session, not hedge-latched, `hedge_value > 0`, not closing, holds open
positions whose basket profit is at or below `−hedge_value`, and the
sell side is not closing and inactive-or-empty, the tick latches
`buy_hedge_triggered`, mints a fresh sell session anchored at the bid,
replaces `rows_sell` with the single hedge row, records the index-0
execution at the bid, stamps the sell order timestamp, and emits SELL
for the summed buy volume with comment `<sell_id>_idx0` and alert true;
and symmetrically for a losing sell side (with the buy-side hedge
monitor not firing first), deploying BUY at the ask. -/
theorem c2_hedge_scenario_a (s : SystemState) (t : TickData) (now : ℚ)
    (ts sB sS : String) :
    (∀ s2, s.runtime.error_status = "" →
      update_exec_stats (phMarket s t now ts) t ts = s2 →
      s2.runtime.error_status = "" →
      s2.runtime.pending_actions = [] →
      s2.runtime.buy_is_closing = false →
      s2.runtime.sell_is_closing = false →
      s2.runtime.buy_on = true →
      s2.runtime.buy_id ≠ "" →
      s2.runtime.buy_hedge_triggered = false →
      s2.settings.buy_hedge_value > 0 →
      t.positions.filter (fun p => pyIn s2.runtime.buy_id p.comment) ≠ [] →
      ((t.positions.filter (fun p => pyIn s2.runtime.buy_id p.comment)).map
          (fun p => p.profit)).sum ≤ -1 * s2.settings.buy_hedge_value →
      (s2.runtime.sell_on = false ∨ s2.runtime.sell_id = "" ∨
        s2.runtime.sell_exec_map.length = 0) →
      ∃ s3,
        handle_tick s t now ts sB sS
          = (s3, Action.openOrder "SELL"
              (((t.positions.filter (fun p => pyIn s2.runtime.buy_id p.comment)).map
                (fun p => p.volume)).sum)
              (get_hash "sell" sS ++ "_idx0") true)
        ∧ s3.runtime.buy_hedge_triggered = true
        ∧ s3.runtime.sell_id = get_hash "sell" sS
        ∧ s3.runtime.sell_start_ref = t.bid
        ∧ s3.runtime.sell_on = true
        ∧ s3.runtime.sell_waiting_limit = false
        ∧ s3.runtime.sell_exec_map
            = [(0, { index := 0, entry_price := t.bid
                     lots := ((t.positions.filter
                         (fun p => pyIn s2.runtime.buy_id p.comment)).map
                         (fun p => p.volume)).sum
                     profit := 0, timestamp := ts
                     cumulative_lots := 0, cumulative_profit := 0 })]
        ∧ s3.settings.rows_sell
            = [{ index := 0, dollar := 0
                 lots := ((t.positions.filter
                     (fun p => pyIn s2.runtime.buy_id p.comment)).map
                     (fun p => p.volume)).sum
                 alert := true }]
        ∧ s3.runtime.sell_last_order_sent_ts = now)
    ∧ (∀ s2, s.runtime.error_status = "" →
      update_exec_stats (phMarket s t now ts) t ts = s2 →
      s2.runtime.error_status = "" →
      s2.runtime.pending_actions = [] →
      s2.runtime.buy_is_closing = false →
      s2.runtime.sell_is_closing = false →
      phBuyHedge s2 t now ts sS = (s2, none) →
      s2.runtime.sell_on = true →
      s2.runtime.sell_id ≠ "" →
      s2.runtime.sell_hedge_triggered = false →
      s2.settings.sell_hedge_value > 0 →
      t.positions.filter (fun p => pyIn s2.runtime.sell_id p.comment) ≠ [] →
      ((t.positions.filter (fun p => pyIn s2.runtime.sell_id p.comment)).map
          (fun p => p.profit)).sum ≤ -1 * s2.settings.sell_hedge_value →
      (s2.runtime.buy_on = false ∨ s2.runtime.buy_id = "" ∨
        s2.runtime.buy_exec_map.length = 0) →
      ∃ s3,
        handle_tick s t now ts sB sS
          = (s3, Action.openOrder "BUY"
              (((t.positions.filter (fun p => pyIn s2.runtime.sell_id p.comment)).map
                (fun p => p.volume)).sum)
              (get_hash "buy" sB ++ "_idx0") true)
        ∧ s3.runtime.sell_hedge_triggered = true
        ∧ s3.runtime.buy_id = get_hash "buy" sB
        ∧ s3.runtime.buy_start_ref = t.ask
        ∧ s3.runtime.buy_on = true
        ∧ s3.runtime.buy_waiting_limit = false
        ∧ s3.runtime.buy_exec_map
            = [(0, { index := 0, entry_price := t.ask
                     lots := ((t.positions.filter
                         (fun p => pyIn s2.runtime.sell_id p.comment)).map
                         (fun p => p.volume)).sum
                     profit := 0, timestamp := ts
                     cumulative_lots := 0, cumulative_profit := 0 })]
        ∧ s3.settings.rows_buy
            = [{ index := 0, dollar := 0
                 lots := ((t.positions.filter
                     (fun p => pyIn s2.runtime.sell_id p.comment)).map
                     (fun p => p.volume)).sum
                 alert := true }]
        ∧ s3.runtime.buy_last_order_sent_ts = now) := by
  constructor
  · intro s2 h0 h1 h2 h3 h4 h5 h6 h7 h8 h9 h10 h11 h12
    have hg : phErrorGate s = (s, none) := by
      unfold phErrorGate
      rw [if_neg (by simp [h0])]
    have hr : phReconcile (phMarket s t now ts) t ts = (s2, none) := by
      unfold phReconcile
      rw [h1, if_neg (by simp [h2])]
    have hp : phPending s2 = (s2, none) := by
      unfold phPending
      rw [h3]
    have hbc : phBuyClosing s2 t = (s2, none) := by
      unfold phBuyClosing
      simp [h4]
    have hsc : phSellClosing s2 t = (s2, none) := by
      unfold phSellClosing
      simp [h5]
    have hbh : phBuyHedge s2 t now ts sS
        = ({ s2 with
              runtime := { s2.runtime with
                buy_hedge_triggered := true
                sell_id := get_hash "sell" sS
                sell_start_ref := t.bid
                sell_on := true
                sell_waiting_limit := false
                sell_exec_map :=
                  [(0, { index := 0, entry_price := t.bid
                         lots := ((t.positions.filter
                             (fun p => pyIn s2.runtime.buy_id p.comment)).map
                             (fun p => p.volume)).sum
                         profit := 0, timestamp := ts
                         cumulative_lots := 0, cumulative_profit := 0 })]
                sell_last_order_sent_ts := now }
              settings := { s2.settings with
                rows_sell :=
                  [{ index := 0, dollar := 0
                     lots := ((t.positions.filter
                         (fun p => pyIn s2.runtime.buy_id p.comment)).map
                         (fun p => p.volume)).sum
                     alert := true }] } },
           some (Action.openOrder "SELL"
              (((t.positions.filter (fun p => pyIn s2.runtime.buy_id p.comment)).map
                (fun p => p.volume)).sum)
              (get_hash "sell" sS ++ "_idx0") true)) := by
      have h10e : ∃ x ∈ t.positions, pyIn s2.runtime.buy_id x.comment = true := by
        simpa using h10
      unfold phBuyHedge
      rw [if_pos ⟨h6, h7, h8, h9, h4⟩]
      simp only [h10, h11, h12, if_pos, mapInsert, mapHasKey]
      simp [h5, h10e, h11, h12, mapInsert, mapHasKey]
    unfold handle_tick
    rw [hg]
    simp only [hr, andThen_none, hp, hbc, hsc, hbh, andThen_some, finish]
    exact ⟨_, rfl, by simp, by simp, by simp, by simp, by simp, by simp, by simp, by simp⟩
  · intro s2 h0 h1 h2 h3 h4 h5 hBH h6 h7 h8 h9 h10 h11 h12
    have hg : phErrorGate s = (s, none) := by
      unfold phErrorGate
      rw [if_neg (by simp [h0])]
    have hr : phReconcile (phMarket s t now ts) t ts = (s2, none) := by
      unfold phReconcile
      rw [h1, if_neg (by simp [h2])]
    have hp : phPending s2 = (s2, none) := by
      unfold phPending
      rw [h3]
    have hbc : phBuyClosing s2 t = (s2, none) := by
      unfold phBuyClosing
      simp [h4]
    have hsc : phSellClosing s2 t = (s2, none) := by
      unfold phSellClosing
      simp [h5]
    have hsh : phSellHedge s2 t now ts sB
        = ({ s2 with
              runtime := { s2.runtime with
                sell_hedge_triggered := true
                buy_id := get_hash "buy" sB
                buy_start_ref := t.ask
                buy_on := true
                buy_waiting_limit := false
                buy_exec_map :=
                  [(0, { index := 0, entry_price := t.ask
                         lots := ((t.positions.filter
                             (fun p => pyIn s2.runtime.sell_id p.comment)).map
                             (fun p => p.volume)).sum
                         profit := 0, timestamp := ts
                         cumulative_lots := 0, cumulative_profit := 0 })]
                buy_last_order_sent_ts := now }
              settings := { s2.settings with
                rows_buy :=
                  [{ index := 0, dollar := 0
                     lots := ((t.positions.filter
                         (fun p => pyIn s2.runtime.sell_id p.comment)).map
                         (fun p => p.volume)).sum
                     alert := true }] } },
           some (Action.openOrder "BUY"
              (((t.positions.filter (fun p => pyIn s2.runtime.sell_id p.comment)).map
                (fun p => p.volume)).sum)
              (get_hash "buy" sB ++ "_idx0") true)) := by
      have h10e : ∃ x ∈ t.positions, pyIn s2.runtime.sell_id x.comment = true := by
        simpa using h10
      unfold phSellHedge
      rw [if_pos ⟨h6, h7, h8, h9, h5⟩]
      simp only [h10, h11, h12, if_pos, mapInsert, mapHasKey]
      simp [h4, h10e, h11, h12, mapInsert, mapHasKey]
    unfold handle_tick
    rw [hg]
    simp only [hr, andThen_none, hp, hbc, hsc, hBH, hsh, andThen_some, finish]
    exact ⟨_, rfl, by simp, by simp, by simp, by simp, by simp, by simp, by simp, by simp⟩

/-- State for the C2 witness, buy-losing side: live buy session with
one executed layer, hedge value 500, sell side off. -/
def c2State : SystemState :=
  { initState with
    runtime := { initRuntime with
      buy_on := true
      buy_id := "buy_aaaaaaaa"
      buy_exec_map := [(0, dfltStats)] }
    settings := { initSettings with buy_hedge_value := 500 } }

/-- Tick for the C2 witness, buy-losing side: one buy position 500
underwater, volume 3/10, bid 95. -/
def c2Tick : TickData :=
  { account_id := "a", equity := 10000, balance := 10000, symbol := "X"
    ask := 951 / 10, bid := 95
    positions := [{ ticket := 1, symbol := "X", ptype := "BUY", volume := 3 / 10
                    price := 100, profit := -500, comment := "buy_aaaaaaaa_idx0" }] }

/-- The reconciled state of the C2 buy-losing witness tick. -/
def c2S2 : SystemState :=
  update_exec_stats (phMarket c2State c2Tick 0 "T") c2Tick "T"

/-- State for the C2 witness, sell-losing side: live sell session with
one executed layer, hedge value 400, buy side off. -/
def c2SellState : SystemState :=
  { initState with
    runtime := { initRuntime with
      sell_on := true
      sell_id := "sell_dddddddd"
      sell_exec_map := [(0, dfltStats)] }
    settings := { initSettings with sell_hedge_value := 400 } }

/-- Tick for the C2 witness, sell-losing side: one sell position 400
underwater, volume 2/10, ask 105. -/
def c2SellTick : TickData :=
  { account_id := "a", equity := 10000, balance := 10000, symbol := "X"
    ask := 105, bid := 1049 / 10
    positions := [{ ticket := 2, symbol := "X", ptype := "SELL", volume := 2 / 10
                    price := 100, profit := -400, comment := "sell_dddddddd_idx0" }] }

/-- The reconciled state of the C2 sell-losing witness tick. -/
def c2SellS2 : SystemState :=
  update_exec_stats (phMarket c2SellState c2SellTick 0 "T") c2SellTick "T"

/-- Witness for C2 at the two concrete scenarios (buy losing and sell
losing). -/
theorem c2_hedge_scenario_a_witness :
    (∃ s3,
      handle_tick c2State c2Tick 0 "T" "bbbbbbbb" "cccccccc"
        = (s3, Action.openOrder "SELL"
            (((c2Tick.positions.filter
                (fun p => pyIn c2S2.runtime.buy_id p.comment)).map
              (fun p => p.volume)).sum)
            (get_hash "sell" "cccccccc" ++ "_idx0") true)
      ∧ s3.runtime.buy_hedge_triggered = true
      ∧ s3.runtime.sell_id = get_hash "sell" "cccccccc"
      ∧ s3.runtime.sell_start_ref = c2Tick.bid
      ∧ s3.runtime.sell_on = true
      ∧ s3.runtime.sell_waiting_limit = false
      ∧ s3.runtime.sell_exec_map
          = [(0, { index := 0, entry_price := c2Tick.bid
                   lots := ((c2Tick.positions.filter
                       (fun p => pyIn c2S2.runtime.buy_id p.comment)).map
                       (fun p => p.volume)).sum
                   profit := 0, timestamp := "T"
                   cumulative_lots := 0, cumulative_profit := 0 })]
      ∧ s3.settings.rows_sell
          = [{ index := 0, dollar := 0
               lots := ((c2Tick.positions.filter
                   (fun p => pyIn c2S2.runtime.buy_id p.comment)).map
                   (fun p => p.volume)).sum
               alert := true }]
      ∧ s3.runtime.sell_last_order_sent_ts = 0)
    ∧ (∃ s3,
      handle_tick c2SellState c2SellTick 0 "T" "bbbbbbbb" "cccccccc"
        = (s3, Action.openOrder "BUY"
            (((c2SellTick.positions.filter
                (fun p => pyIn c2SellS2.runtime.sell_id p.comment)).map
              (fun p => p.volume)).sum)
            (get_hash "buy" "bbbbbbbb" ++ "_idx0") true)
      ∧ s3.runtime.sell_hedge_triggered = true
      ∧ s3.runtime.buy_id = get_hash "buy" "bbbbbbbb"
      ∧ s3.runtime.buy_start_ref = c2SellTick.ask
      ∧ s3.runtime.buy_on = true
      ∧ s3.runtime.buy_waiting_limit = false
      ∧ s3.runtime.buy_exec_map
          = [(0, { index := 0, entry_price := c2SellTick.ask
                   lots := ((c2SellTick.positions.filter
                       (fun p => pyIn c2SellS2.runtime.sell_id p.comment)).map
                       (fun p => p.volume)).sum
                   profit := 0, timestamp := "T"
                   cumulative_lots := 0, cumulative_profit := 0 })]
      ∧ s3.settings.rows_buy
          = [{ index := 0, dollar := 0
               lots := ((c2SellTick.positions.filter
                   (fun p => pyIn c2SellS2.runtime.sell_id p.comment)).map
                   (fun p => p.volume)).sum
               alert := true }]
      ∧ s3.runtime.buy_last_order_sent_ts = 0) :=
  ⟨(c2_hedge_scenario_a c2State c2Tick 0 "T" "bbbbbbbb" "cccccccc").1 c2S2
      (by decide) rfl
      (by with_unfolding_all rfl)
      (by with_unfolding_all rfl)
      (by with_unfolding_all rfl)
      (by with_unfolding_all rfl)
      (by with_unfolding_all rfl)
      (by with_unfolding_all decide)
      (by with_unfolding_all rfl)
      (by with_unfolding_all decide)
      (by with_unfolding_all decide)
      (by with_unfolding_all decide)
      (Or.inl (by with_unfolding_all rfl)),
   (c2_hedge_scenario_a c2SellState c2SellTick 0 "T" "bbbbbbbb" "cccccccc").2 c2SellS2
      (by decide) rfl
      (by with_unfolding_all rfl)
      (by with_unfolding_all rfl)
      (by with_unfolding_all rfl)
      (by with_unfolding_all rfl)
      (by with_unfolding_all rfl)
      (by with_unfolding_all rfl)
      (by with_unfolding_all decide)
      (by with_unfolding_all rfl)
      (by with_unfolding_all decide)
      (by with_unfolding_all decide)
      (by with_unfolding_all decide)
      (Or.inl (by with_unfolding_all rfl))⟩

/-! ### C10: the hedge-flag invariant over all reachable states -/

/-- The C10 invariant: an empty session id implies a cleared hedge
latch, on each side. -/
def hedgeInv (s : SystemState) : Prop :=
  (s.runtime.buy_id = "" → s.runtime.buy_hedge_triggered = false)
  ∧ (s.runtime.sell_id = "" → s.runtime.sell_hedge_triggered = false)

theorem get_hash_ne_empty (side seed : String) : get_hash side seed ≠ "" := by
  intro h
  have hlen := congrArg String.length h
  rw [get_hash, String.length_append, String.length_append] at hlen
  have h1 : ("_" : String).length = 1 := rfl
  have h0 : ("" : String).length = 0 := rfl
  omega

theorem phErrorGate_fst (s : SystemState) : (phErrorGate s).1 = s := by
  unfold phErrorGate
  split_ifs <;> rfl

theorem finish_fst (r : SystemState × Option Action) : (finish r).1 = r.1 := by
  rcases r with ⟨sf, _ | a⟩ <;> rfl

theorem phMarket_inv (s : SystemState) (t : TickData) (now : ℚ) (ts : String) :
    hedgeInv s → hedgeInv (phMarket s t now ts) :=
  fun h => h

theorem update_exec_stats_inv (s : SystemState) (t : TickData) (ts : String) :
    hedgeInv s → hedgeInv (update_exec_stats s t ts) := by
  intro h
  unfold hedgeInv at h ⊢
  unfold update_exec_stats
  rcases absorb s.runtime.buy_id s.runtime.sell_id ts t.positions
      s.runtime.buy_exec_map s.runtime.sell_exec_map with e | ⟨bm, sm⟩
  · exact h
  · exact h

theorem phReconcile_inv (s : SystemState) (t : TickData) (ts : String) :
    hedgeInv s → hedgeInv (phReconcile s t ts).1 := by
  intro h
  unfold phReconcile
  dsimp only []
  split_ifs <;> exact update_exec_stats_inv s t ts h

theorem phPending_inv (s : SystemState) :
    hedgeInv s → hedgeInv (phPending s).1 := by
  intro h
  unfold hedgeInv at h ⊢
  unfold phPending
  rcases s.runtime.pending_actions with _ | ⟨a, rest⟩
  · exact h
  · exact h

theorem phBuyClosing_inv (s : SystemState) (t : TickData) :
    hedgeInv s → hedgeInv (phBuyClosing s t).1 := by
  intro h
  unfold hedgeInv at h ⊢
  unfold phBuyClosing
  dsimp only []
  split_ifs <;> first
    | exact h
    | exact ⟨fun _ => rfl, h.2⟩

theorem phSellClosing_inv (s : SystemState) (t : TickData) :
    hedgeInv s → hedgeInv (phSellClosing s t).1 := by
  intro h
  unfold hedgeInv at h ⊢
  unfold phSellClosing
  dsimp only []
  split_ifs <;> first
    | exact h
    | exact ⟨h.1, fun _ => rfl⟩

theorem phBuyHedge_inv (s : SystemState) (t : TickData) (now : ℚ)
    (ts seedS : String) : hedgeInv s → hedgeInv (phBuyHedge s t now ts seedS).1 := by
  intro h
  unfold hedgeInv at h ⊢
  unfold phBuyHedge
  dsimp only []
  split_ifs with h1 <;>
    first
    | exact h
    | exact ⟨fun hc => absurd hc h1.2.1, fun hc => absurd hc (get_hash_ne_empty _ _)⟩
    | exact ⟨fun hc => absurd hc h1.2.1, h.2⟩

theorem phSellHedge_inv (s : SystemState) (t : TickData) (now : ℚ)
    (ts seedB : String) : hedgeInv s → hedgeInv (phSellHedge s t now ts seedB).1 := by
  intro h
  unfold hedgeInv at h ⊢
  unfold phSellHedge
  dsimp only []
  split_ifs with h1 <;>
    first
    | exact h
    | exact ⟨fun hc => absurd hc (get_hash_ne_empty _ _), fun hc => absurd hc h1.2.1⟩
    | exact ⟨h.1, fun hc => absurd hc h1.2.1⟩

theorem phTpBuy_inv (s : SystemState) (t : TickData) :
    hedgeInv s → hedgeInv (phTpBuy s t).1 := by
  intro h
  unfold hedgeInv at h ⊢
  unfold phTpBuy
  dsimp only []
  split_ifs <;> exact h

theorem phTpSell_inv (s : SystemState) (t : TickData) :
    hedgeInv s → hedgeInv (phTpSell s t).1 := by
  intro h
  unfold hedgeInv at h ⊢
  unfold phTpSell
  dsimp only []
  split_ifs <;> exact h

theorem phExtCloseBuy_inv (s : SystemState) (t : TickData) (now : ℚ) :
    hedgeInv s → hedgeInv (phExtCloseBuy s t now) := by
  intro h
  unfold hedgeInv at h ⊢
  unfold phExtCloseBuy
  dsimp only []
  split_ifs <;> first
    | exact h
    | exact ⟨fun _ => rfl, h.2⟩

theorem phExtCloseSell_inv (s : SystemState) (t : TickData) (now : ℚ) :
    hedgeInv s → hedgeInv (phExtCloseSell s t now) := by
  intro h
  unfold hedgeInv at h ⊢
  unfold phExtCloseSell
  dsimp only []
  split_ifs <;> first
    | exact h
    | exact ⟨h.1, fun _ => rfl⟩

theorem phAccumBuy_inv (s : SystemState) (t : TickData) (now : ℚ)
    (ts seedB : String) : hedgeInv s → hedgeInv (phAccumBuy s t now ts seedB).1 := by
  intro h
  unfold hedgeInv at h ⊢
  unfold phAccumBuy
  dsimp only []
  split_ifs with h1 <;> first
    | exact h
    | exact ⟨fun _ => h1.2.2, h.2⟩

theorem phAccumSell_inv (s : SystemState) (t : TickData) (now : ℚ)
    (ts seedS : String) : hedgeInv s → hedgeInv (phAccumSell s t now ts seedS).1 := by
  intro h
  unfold hedgeInv at h ⊢
  unfold phAccumSell
  dsimp only []
  split_ifs with h1 <;> first
    | exact h
    | exact ⟨h.1, fun _ => h1.2.2⟩

theorem andThen_pres (P : SystemState → Prop) (r : SystemState × Option Action)
    (f : SystemState → SystemState × Option Action)
    (hr : P r.1) (hf : ∀ x, P x → P (f x).1) : P (andThen r f).1 := by
  rcases r with ⟨s, a⟩
  cases a with
  | some a => exact hr
  | none => exact hf s hr

theorem handle_tick_inv (s : SystemState) (t : TickData) (now : ℚ)
    (ts sB sS : String) : hedgeInv s → hedgeInv (handle_tick s t now ts sB sS).1 := by
  intro h
  unfold handle_tick
  rcases hg : phErrorGate s with ⟨s0, a0⟩
  have hs0 : s0 = s := by
    have hf := phErrorGate_fst s
    rw [hg] at hf
    exact hf
  subst hs0
  cases a0 with
  | some a => exact h
  | none =>
    dsimp only []
    rw [finish_fst]
    apply andThen_pres _ _ _ ?_ (fun x hx => phAccumSell_inv x t now ts sS hx)
    apply andThen_pres _ _ _ ?_ (fun x hx => phAccumBuy_inv x t now ts sB hx)
    apply andThen_pres _ _ _ ?_ (fun x hx => phExtCloseSell_inv x t now hx)
    apply andThen_pres _ _ _ ?_ (fun x hx => phExtCloseBuy_inv x t now hx)
    apply andThen_pres _ _ _ ?_ (fun x hx => phTpSell_inv x t hx)
    apply andThen_pres _ _ _ ?_ (fun x hx => phTpBuy_inv x t hx)
    apply andThen_pres _ _ _ ?_ (fun x hx => phSellHedge_inv x t now ts sB hx)
    apply andThen_pres _ _ _ ?_ (fun x hx => phBuyHedge_inv x t now ts sS hx)
    apply andThen_pres _ _ _ ?_ (fun x hx => phSellClosing_inv x t hx)
    apply andThen_pres _ _ _ ?_ (fun x hx => phBuyClosing_inv x t hx)
    apply andThen_pres _ _ _ ?_ (fun x hx => phPending_inv x hx)
    exact phReconcile_inv _ t ts (phMarket_inv _ t now ts h)

theorem control_inv (s : SystemState) (b se c e : Option Bool) :
    hedgeInv s → hedgeInv (control s b se c e) := by
  intro h
  unfold hedgeInv at h ⊢
  unfold control
  rcases b with _ | b <;> rcases se with _ | se <;> rcases c with _ | c <;>
    dsimp only [] <;> split_ifs <;> exact h

theorem update_settings_inv (s : SystemState) (ns : UserSettings) :
    hedgeInv s → ∀ s2, update_settings s ns = Except.ok s2 → hedgeInv s2 := by
  intro h s2 hok
  unfold update_settings at hok
  split_ifs at hok
  rw [← Except.ok.inj hok]
  exact h

theorem stepCmd_inv (s : SystemState) (c : Cmd) :
    hedgeInv s → hedgeInv (stepCmd s c) := by
  intro h
  unfold stepCmd
  rcases c with ⟨t, now, ts, sb, ss⟩ | ⟨b, se, c, e⟩ | ⟨ns⟩
  · exact handle_tick_inv s t now ts sb ss h
  · exact control_inv s b se c e h
  · dsimp only []
    rcases hok : update_settings s ns with e2 | s2
    · exact h
    · exact update_settings_inv s ns h s2 hok

/-- C10 (confirmed): in every state reachable from the initial state by
any sequence of ticks and commands, for each side, an empty session id
implies a cleared hedge-trigger flag. -/
theorem c10_hedge_flag_invariant (s : SystemState) :
    Reachable s →
    (s.runtime.buy_id = "" → s.runtime.buy_hedge_triggered = false)
    ∧ (s.runtime.sell_id = "" → s.runtime.sell_hedge_triggered = false) := by
  rintro ⟨l, rfl⟩
  have hfold : ∀ (cs : List Cmd) (s0 : SystemState), hedgeInv s0 →
      hedgeInv (cs.foldl stepCmd s0) := by
    intro cs
    induction cs with
    | nil => intro s0 h; exact h
    | cons c rest ih => intro s0 h; exact ih (stepCmd s0 c) (stepCmd_inv s0 c h)
  exact hfold l initState (by constructor <;> intro <;> rfl)

/-- Witness for C10 at the initial state (reachable via the empty
interaction sequence). -/
theorem c10_hedge_flag_invariant_witness :
    (initState.runtime.buy_id = "" → initState.runtime.buy_hedge_triggered = false)
    ∧ (initState.runtime.sell_id = "" → initState.runtime.sell_hedge_triggered = false) :=
  c10_hedge_flag_invariant initState ⟨[], rfl⟩

/-! ### C4: tick replay and the un-executed-to-executed transition -/

/-- State for the C4 counterexample: two queued administrative
closures. -/
def c4State : SystemState :=
  { initState with
    runtime := { initRuntime with
      pending_actions := ["CLOSE_ALL_EMERGENCY", "CLOSE_ALL_EMERGENCY"] } }

/-- Tick for the C4 counterexample. -/
def c4Tick : TickData :=
  { account_id := "a", equity := 1, balance := 1, symbol := "X"
    ask := 1, bid := 1, positions := [] }

/-- State for the second C4 counterexample: an anchored buy session,
two configured layers, price far below both triggers. -/
def c4GapState : SystemState :=
  { initState with
    runtime := { initRuntime with
      buy_on := true
      buy_id := "buy_aaaaaaaa"
      buy_start_ref := 100 }
    settings := { initSettings with
      rows_buy := [{ index := 0, dollar := 1, lots := 1, alert := false },
                   { index := 1, dollar := 1, lots := 1, alert := false }] } }

/-- Tick for the second C4 counterexample: ask 90, below both layer
triggers (99 and 98). -/
def c4GapTick : TickData :=
  { account_id := "a", equity := 1, balance := 1, symbol := "X"
    ask := 90, bid := 90, positions := [] }

/-- C4 counterexample: replaying the identical tick immediately, with
no state change in between, does NOT always yield WAIT.  With two
queued administrative closures both ticks emit CLOSE_ALL, and with the
price gapped through two layer triggers the first tick opens layer 0
and the replay opens layer 1. -/
theorem c4_counterexample :
    (handle_tick c4State c4Tick 0 "T" "x" "y").2 = Action.closeAll "server"
    ∧ (handle_tick (handle_tick c4State c4Tick 0 "T" "x" "y").1
        c4Tick 0 "T" "x" "y").2 = Action.closeAll "server"
    ∧ (handle_tick c4GapState c4GapTick 0 "T" "ffffffff" "eeeeeeee").2
        = Action.openOrder "BUY" 1 "buy_aaaaaaaa_idx0" false
    ∧ (handle_tick (handle_tick c4GapState c4GapTick 0 "T" "ffffffff" "eeeeeeee").1
        c4GapTick 0 "T" "dddddddd" "cccccccc").2
        = Action.openOrder "BUY" 1 "buy_aaaaaaaa_idx1" false := by
  refine ⟨?_, ?_, ?_, ?_⟩ <;> with_unfolding_all rfl

/-- An emitted order is a fresh layer execution relative to the state
returned with it: its comment is the emitting side's session id plus
`_idx<n>` for an index `n` that was absent from some prior exec map of
which the returned exec map is the insertion. -/
def OrderFresh (sf : SystemState) (a : Action) : Prop :=
  ∀ sd v c al, a = Action.openOrder sd v c al →
    ∃ pm n st2, mapLookup pm n = none
      ∧ c = (if sd = "BUY" then sf.runtime.buy_id else sf.runtime.sell_id)
          ++ "_idx" ++ toString n
      ∧ (if sd = "BUY" then sf.runtime.buy_exec_map else sf.runtime.sell_exec_map)
          = mapInsert pm n st2

/-- Precondition that each exec map has no entry at index
`length of the map` (holds for the dense maps the engine builds). -/
def FreshLen (s : SystemState) : Prop :=
  mapLookup s.runtime.buy_exec_map s.runtime.buy_exec_map.length = none
  ∧ mapLookup s.runtime.sell_exec_map s.runtime.sell_exec_map.length = none

/-- A pipeline intermediate result is sound: an emitted order is a
fresh layer execution, a fall-through keeps the freshness
precondition. -/
def StepOk (r : SystemState × Option Action) : Prop :=
  match r.2 with
  | some a => OrderFresh r.1 a
  | none => FreshLen r.1

theorem orderFresh_wait (sf : SystemState) (e : Option String) :
    OrderFresh sf (Action.wait e) :=
  fun _ _ _ _ heq => Action.noConfusion heq

theorem orderFresh_closeAll (sf : SystemState) (cm : String) :
    OrderFresh sf (Action.closeAll cm) :=
  fun _ _ _ _ heq => Action.noConfusion heq

theorem key_le_maxKey (m : ExecMap) : ∀ kv ∈ m, kv.1 ≤ mapMaxKey m := by
  unfold mapMaxKey
  induction m with
  | nil => intro kv h; cases h
  | cons p rest ih =>
    intro kv h
    rcases List.mem_cons.mp h with heq | htail
    · subst heq
      exact Nat.le_max_left _ _
    · exact Nat.le_trans (ih kv htail) (Nat.le_max_right _ _)

theorem mapLookup_maxKey_succ (m : ExecMap) :
    mapLookup m (mapMaxKey m + 1) = none := by
  unfold mapLookup
  rw [List.find?_eq_none.mpr]
  · rfl
  · intro kv hmem
    simp only [decide_eq_true_eq]
    intro hk
    have := key_le_maxKey m kv hmem
    omega

theorem andThen_stepok (r : SystemState × Option Action)
    (f : SystemState → SystemState × Option Action)
    (hr : StepOk r) (hf : ∀ x, FreshLen x → StepOk (f x)) :
    StepOk (andThen r f) := by
  rcases r with ⟨s, a⟩
  cases a with
  | some a => exact hr
  | none => exact hf s hr

theorem phBuyHedge_stepok (x : SystemState) (t : TickData) (now : ℚ)
    (ts seedS : String) (hf : FreshLen x) : StepOk (phBuyHedge x t now ts seedS) := by
  unfold phBuyHedge
  dsimp only []
  by_cases h1 : x.runtime.buy_on = true ∧ x.runtime.buy_id ≠ "" ∧
      x.runtime.buy_hedge_triggered = false ∧ x.settings.buy_hedge_value > 0 ∧
      x.runtime.buy_is_closing = false
  · rw [if_pos h1]
    by_cases h2 : t.positions.filter (fun p => pyIn x.runtime.buy_id p.comment) ≠ []
    · rw [if_pos h2]
      by_cases h3 : ((t.positions.filter (fun p => pyIn x.runtime.buy_id p.comment)).map
          (fun p => p.profit)).sum ≤ -1 * x.settings.buy_hedge_value
      · rw [if_pos h3]
        by_cases h4 : x.runtime.sell_is_closing = false
        · rw [if_pos h4]
          by_cases h5 : x.runtime.sell_on = false ∨ x.runtime.sell_id = "" ∨
              x.runtime.sell_exec_map.length = 0
          · rw [if_pos h5]
            intro sd v c al heq
            obtain ⟨hsd, hv, hc, hal⟩ := Action.openOrder.inj heq
            subst hsd
            subst hc
            refine ⟨[], 0,
              { index := 0, entry_price := t.bid
                lots := ((t.positions.filter
                    (fun p => pyIn x.runtime.buy_id p.comment)).map
                    (fun p => p.volume)).sum
                profit := 0, timestamp := ts
                cumulative_lots := 0, cumulative_profit := 0 },
              rfl, ?_, ?_⟩
            · show get_hash "sell" seedS ++ "_idx0"
                  = get_hash "sell" seedS ++ "_idx" ++ toString 0
              rw [String.append_assoc]
              with_unfolding_all rfl
            · with_unfolding_all rfl
          · rw [if_neg h5]
            intro sd v c al heq
            obtain ⟨hsd, hv, hc, hal⟩ := Action.openOrder.inj heq
            subst hsd
            subst hc
            have hne : x.runtime.sell_exec_map ≠ [] := by
              intro he
              exact h5 (Or.inr (Or.inr (by rw [he]; rfl)))
            rw [if_neg hne]
            refine ⟨x.runtime.sell_exec_map,
              mapMaxKey x.runtime.sell_exec_map + 1,
              { index := ((mapMaxKey x.runtime.sell_exec_map + 1 : Nat) : Int)
                entry_price := t.bid
                lots := ((t.positions.filter
                    (fun p => pyIn x.runtime.buy_id p.comment)).map
                    (fun p => p.volume)).sum
                profit := 0, timestamp := ts
                cumulative_lots := 0, cumulative_profit := 0 },
              mapLookup_maxKey_succ _, ?_, ?_⟩
            · with_unfolding_all rfl
            · with_unfolding_all rfl
        · rw [if_neg h4]
          exact hf
      · rw [if_neg h3]
        exact hf
    · rw [if_neg h2]
      exact hf
  · rw [if_neg h1]
    exact hf

theorem phReconcile_stepok (x : SystemState) (t : TickData) (ts : String)
    (hfresh : FreshLen (update_exec_stats x t ts)) : StepOk (phReconcile x t ts) := by
  unfold phReconcile
  dsimp only []
  split_ifs
  · exact orderFresh_wait _ _
  · exact hfresh

theorem phPending_stepok (x : SystemState) (hf : FreshLen x) : StepOk (phPending x) := by
  unfold phPending
  rcases x.runtime.pending_actions with _ | ⟨a, rest⟩
  · exact hf
  · exact orderFresh_closeAll _ _

theorem phBuyClosing_stepok (x : SystemState) (t : TickData) (hf : FreshLen x) :
    StepOk (phBuyClosing x t) := by
  unfold phBuyClosing
  dsimp only []
  split_ifs <;>
    first
    | exact hf
    | exact orderFresh_wait _ _
    | exact orderFresh_closeAll _ _

theorem phSellClosing_stepok (x : SystemState) (t : TickData) (hf : FreshLen x) :
    StepOk (phSellClosing x t) := by
  unfold phSellClosing
  dsimp only []
  split_ifs <;>
    first
    | exact hf
    | exact orderFresh_wait _ _
    | exact orderFresh_closeAll _ _

theorem phTpBuy_stepok (x : SystemState) (t : TickData) (hf : FreshLen x) :
    StepOk (phTpBuy x t) := by
  unfold phTpBuy
  dsimp only []
  split_ifs <;>
    first
    | exact hf
    | exact orderFresh_closeAll _ _

theorem phTpSell_stepok (x : SystemState) (t : TickData) (hf : FreshLen x) :
    StepOk (phTpSell x t) := by
  unfold phTpSell
  dsimp only []
  split_ifs <;>
    first
    | exact hf
    | exact orderFresh_closeAll _ _

theorem phExtCloseBuy_freshlen (x : SystemState) (t : TickData) (now : ℚ)
    (hf : FreshLen x) : FreshLen (phExtCloseBuy x t now) := by
  unfold FreshLen at hf ⊢
  unfold phExtCloseBuy
  dsimp only []
  split_ifs <;>
    first
    | exact hf
    | exact ⟨rfl, hf.2⟩

theorem phExtCloseSell_freshlen (x : SystemState) (t : TickData) (now : ℚ)
    (hf : FreshLen x) : FreshLen (phExtCloseSell x t now) := by
  unfold FreshLen at hf ⊢
  unfold phExtCloseSell
  dsimp only []
  split_ifs <;>
    first
    | exact hf
    | exact ⟨hf.1, rfl⟩

theorem finish_order (r : SystemState × Option Action) (s3 : SystemState)
    (sd : String) (v : ℚ) (c : String) (al : Bool) (h : StepOk r)
    (hfin : finish r = (s3, Action.openOrder sd v c al)) :
    OrderFresh s3 (Action.openOrder sd v c al) := by
  rcases r with ⟨sf, _ | a⟩
  · exact absurd (congrArg Prod.snd hfin) (by simp [finish])
  · have hsf := congrArg Prod.fst hfin
    have ha := congrArg Prod.snd hfin
    simp only [finish] at hsf ha
    rw [← hsf, ← ha]
    exact h

theorem phSellHedge_stepok (x : SystemState) (t : TickData) (now : ℚ)
    (ts seedB : String) (hf : FreshLen x) : StepOk (phSellHedge x t now ts seedB) := by
  unfold phSellHedge
  dsimp only []
  by_cases h1 : x.runtime.sell_on = true ∧ x.runtime.sell_id ≠ "" ∧
      x.runtime.sell_hedge_triggered = false ∧ x.settings.sell_hedge_value > 0 ∧
      x.runtime.sell_is_closing = false
  · rw [if_pos h1]
    by_cases h2 : t.positions.filter (fun p => pyIn x.runtime.sell_id p.comment) ≠ []
    · rw [if_pos h2]
      by_cases h3 : ((t.positions.filter (fun p => pyIn x.runtime.sell_id p.comment)).map
          (fun p => p.profit)).sum ≤ -1 * x.settings.sell_hedge_value
      · rw [if_pos h3]
        by_cases h4 : x.runtime.buy_is_closing = false
        · rw [if_pos h4]
          by_cases h5 : x.runtime.buy_on = false ∨ x.runtime.buy_id = "" ∨
              x.runtime.buy_exec_map.length = 0
          · rw [if_pos h5]
            intro sd v c al heq
            obtain ⟨hsd, hv, hc, hal⟩ := Action.openOrder.inj heq
            subst hsd
            subst hc
            refine ⟨[], 0,
              { index := 0, entry_price := t.ask
                lots := ((t.positions.filter
                    (fun p => pyIn x.runtime.sell_id p.comment)).map
                    (fun p => p.volume)).sum
                profit := 0, timestamp := ts
                cumulative_lots := 0, cumulative_profit := 0 },
              rfl, ?_, ?_⟩
            · show get_hash "buy" seedB ++ "_idx0"
                  = get_hash "buy" seedB ++ "_idx" ++ toString 0
              rw [String.append_assoc]
              with_unfolding_all rfl
            · with_unfolding_all rfl
          · rw [if_neg h5]
            intro sd v c al heq
            obtain ⟨hsd, hv, hc, hal⟩ := Action.openOrder.inj heq
            subst hsd
            subst hc
            have hne : x.runtime.buy_exec_map ≠ [] := by
              intro he
              exact h5 (Or.inr (Or.inr (by rw [he]; rfl)))
            rw [if_neg hne]
            refine ⟨x.runtime.buy_exec_map,
              mapMaxKey x.runtime.buy_exec_map + 1,
              { index := ((mapMaxKey x.runtime.buy_exec_map + 1 : Nat) : Int)
                entry_price := t.ask
                lots := ((t.positions.filter
                    (fun p => pyIn x.runtime.sell_id p.comment)).map
                    (fun p => p.volume)).sum
                profit := 0, timestamp := ts
                cumulative_lots := 0, cumulative_profit := 0 },
              mapLookup_maxKey_succ _, ?_, ?_⟩
            · with_unfolding_all rfl
            · with_unfolding_all rfl
        · rw [if_neg h4]
          exact hf
      · rw [if_neg h3]
        exact hf
    · rw [if_neg h2]
      exact hf
  · rw [if_neg h1]
    exact hf

theorem phAccumBuy_stepok (x : SystemState) (t : TickData) (now : ℚ)
    (ts seedB : String) (hf : FreshLen x) : StepOk (phAccumBuy x t now ts seedB) := by
  unfold phAccumBuy
  dsimp only []
  by_cases h1 : x.runtime.buy_on = true ∧ x.runtime.buy_is_closing = false ∧
      x.runtime.buy_hedge_triggered = false
  case neg => rw [if_neg h1]; exact hf
  rw [if_pos h1]
  by_cases hmint : x.runtime.buy_id = ""
  · rw [if_pos hmint]
    dsimp only []
    by_cases hlim : x.settings.buy_limit_price > 0
    · simp only [if_pos hlim]
      rw [if_pos trivial]
      by_cases hask : t.ask ≤ x.settings.buy_limit_price
      · rw [if_pos hask]
        exact ⟨rfl, hf.2⟩
      · rw [if_neg hask]
        exact ⟨rfl, hf.2⟩
    · simp only [if_neg hlim]
      rw [if_neg (show ¬((false : Bool) = true) from by decide)]
      by_cases hrows : ([] : ExecMap).length < x.settings.rows_buy.length
      · rw [if_pos hrows]
        by_cases hmal : (x.settings.rows_buy.getD ([] : ExecMap).length dfltRow).dollar ≤ 0 ∨
            (x.settings.rows_buy.getD ([] : ExecMap).length dfltRow).lots ≤ 0
        · rw [if_pos hmal]
          exact orderFresh_wait _ _
        · rw [if_neg hmal]
          split
          · intro sd v c al heq
            obtain ⟨hsd, hv, hc, hal⟩ := Action.openOrder.inj heq
            subst hsd
            subst hc
            refine ⟨[], ([] : ExecMap).length,
              { index := ((([] : ExecMap).length : Nat) : Int)
                entry_price := t.ask
                lots := (x.settings.rows_buy.getD ([] : ExecMap).length dfltRow).lots
                profit := 0, timestamp := ts
                cumulative_lots := 0, cumulative_profit := 0 },
              rfl, ?_, ?_⟩
            · with_unfolding_all rfl
            · with_unfolding_all rfl
          · exact ⟨rfl, hf.2⟩
      · rw [if_neg hrows]
        exact ⟨rfl, hf.2⟩
  · rw [if_neg hmint]
    by_cases hw : x.runtime.buy_waiting_limit = true
    · rw [if_pos hw]
      by_cases hask : t.ask ≤ x.settings.buy_limit_price
      · rw [if_pos hask]
        exact hf
      · rw [if_neg hask]
        exact hf
    · rw [if_neg hw]
      by_cases hrows : x.runtime.buy_exec_map.length < x.settings.rows_buy.length
      · rw [if_pos hrows]
        by_cases hmal : (x.settings.rows_buy.getD x.runtime.buy_exec_map.length dfltRow).dollar ≤ 0 ∨
            (x.settings.rows_buy.getD x.runtime.buy_exec_map.length dfltRow).lots ≤ 0
        · rw [if_pos hmal]
          exact orderFresh_wait _ _
        · rw [if_neg hmal]
          split
          · intro sd v c al heq
            obtain ⟨hsd, hv, hc, hal⟩ := Action.openOrder.inj heq
            subst hsd
            subst hc
            refine ⟨x.runtime.buy_exec_map, x.runtime.buy_exec_map.length,
              { index := ((x.runtime.buy_exec_map.length : Nat) : Int)
                entry_price := t.ask
                lots := (x.settings.rows_buy.getD x.runtime.buy_exec_map.length dfltRow).lots
                profit := 0, timestamp := ts
                cumulative_lots := 0, cumulative_profit := 0 },
              hf.1, ?_, ?_⟩
            · with_unfolding_all rfl
            · with_unfolding_all rfl
          · exact hf
      · rw [if_neg hrows]
        exact hf

theorem phAccumSell_stepok (x : SystemState) (t : TickData) (now : ℚ)
    (ts seedS : String) (hf : FreshLen x) : StepOk (phAccumSell x t now ts seedS) := by
  unfold phAccumSell
  dsimp only []
  by_cases h1 : x.runtime.sell_on = true ∧ x.runtime.sell_is_closing = false ∧
      x.runtime.sell_hedge_triggered = false
  case neg => rw [if_neg h1]; exact hf
  rw [if_pos h1]
  by_cases hmint : x.runtime.sell_id = ""
  · rw [if_pos hmint]
    dsimp only []
    by_cases hlim : x.settings.sell_limit_price > 0
    · simp only [if_pos hlim]
      rw [if_pos trivial]
      by_cases hbid : t.bid ≥ x.settings.sell_limit_price
      · rw [if_pos hbid]
        exact ⟨hf.1, rfl⟩
      · rw [if_neg hbid]
        exact ⟨hf.1, rfl⟩
    · simp only [if_neg hlim]
      rw [if_neg (show ¬((false : Bool) = true) from by decide)]
      by_cases hrows : ([] : ExecMap).length < x.settings.rows_sell.length
      · rw [if_pos hrows]
        by_cases hmal : (x.settings.rows_sell.getD ([] : ExecMap).length dfltRow).dollar ≤ 0 ∨
            (x.settings.rows_sell.getD ([] : ExecMap).length dfltRow).lots ≤ 0
        · rw [if_pos hmal]
          exact orderFresh_wait _ _
        · rw [if_neg hmal]
          split
          · intro sd v c al heq
            obtain ⟨hsd, hv, hc, hal⟩ := Action.openOrder.inj heq
            subst hsd
            subst hc
            refine ⟨[], ([] : ExecMap).length,
              { index := ((([] : ExecMap).length : Nat) : Int)
                entry_price := t.bid
                lots := (x.settings.rows_sell.getD ([] : ExecMap).length dfltRow).lots
                profit := 0, timestamp := ts
                cumulative_lots := 0, cumulative_profit := 0 },
              rfl, ?_, ?_⟩
            · with_unfolding_all rfl
            · with_unfolding_all rfl
          · exact ⟨hf.1, rfl⟩
      · rw [if_neg hrows]
        exact ⟨hf.1, rfl⟩
  · rw [if_neg hmint]
    by_cases hw : x.runtime.sell_waiting_limit = true
    · rw [if_pos hw]
      by_cases hbid : t.bid ≥ x.settings.sell_limit_price
      · rw [if_pos hbid]
        exact hf
      · rw [if_neg hbid]
        exact hf
    · rw [if_neg hw]
      by_cases hrows : x.runtime.sell_exec_map.length < x.settings.rows_sell.length
      · rw [if_pos hrows]
        by_cases hmal : (x.settings.rows_sell.getD x.runtime.sell_exec_map.length dfltRow).dollar ≤ 0 ∨
            (x.settings.rows_sell.getD x.runtime.sell_exec_map.length dfltRow).lots ≤ 0
        · rw [if_pos hmal]
          exact orderFresh_wait _ _
        · rw [if_neg hmal]
          split
          · intro sd v c al heq
            obtain ⟨hsd, hv, hc, hal⟩ := Action.openOrder.inj heq
            subst hsd
            subst hc
            refine ⟨x.runtime.sell_exec_map, x.runtime.sell_exec_map.length,
              { index := ((x.runtime.sell_exec_map.length : Nat) : Int)
                entry_price := t.bid
                lots := (x.settings.rows_sell.getD x.runtime.sell_exec_map.length dfltRow).lots
                profit := 0, timestamp := ts
                cumulative_lots := 0, cumulative_profit := 0 },
              hf.2, ?_, ?_⟩
            · with_unfolding_all rfl
            · with_unfolding_all rfl
          · exact hf
      · rw [if_neg hrows]
        exact hf

/-- C4 amended (corrected): replaying the same tick twice need not
yield WAIT the second time (see the counterexample: CLOSE_ALL repeats
while the queue or a closing phase is in progress, and a price that
gapped through several layer targets opens the next layer on replay).
What does hold is the claim's stated mechanism: an order is emitted
only when a layer transitions from un-executed to executed — every
BUY/SELL emitted by a tick carries comment `<session id>_idx<n>` for an
index `n` that was absent from the exec map it was inserted into, the
insertion being visible in the returned state (under the density
precondition `FreshLen` on the reconciled maps, which the engine's own
maps satisfy). -/
theorem c4_order_executes_fresh_layer (s : SystemState) (t : TickData) (now : ℚ)
    (ts sB sS : String) (s3 : SystemState) (sd : String) (v : ℚ) (c : String)
    (al : Bool) :
    FreshLen (update_exec_stats (phMarket s t now ts) t ts) →
    handle_tick s t now ts sB sS = (s3, Action.openOrder sd v c al) →
    ∃ pm n st2, mapLookup pm n = none
      ∧ c = (if sd = "BUY" then s3.runtime.buy_id else s3.runtime.sell_id)
          ++ "_idx" ++ toString n
      ∧ (if sd = "BUY" then s3.runtime.buy_exec_map else s3.runtime.sell_exec_map)
          = mapInsert pm n st2 := by
  intro hfresh heq
  unfold handle_tick at heq
  rcases hg : phErrorGate s with ⟨s0, a0⟩
  rw [hg] at heq
  have hs0 : s0 = s := by
    have hfst := phErrorGate_fst s
    rw [hg] at hfst
    exact hfst
  subst hs0
  cases a0 with
  | some a =>
    dsimp only [] at heq
    have hsnd := congrArg Prod.snd heq
    dsimp only [] at hsnd
    unfold phErrorGate at hg
    split_ifs at hg
    · have ha := congrArg Prod.snd hg
      dsimp only [] at ha
      rw [← Option.some.inj ha] at hsnd
      exact absurd hsnd (by simp)
    · have ha := congrArg Prod.snd hg
      dsimp only [] at ha
      exact absurd ha (by simp)
  | none =>
    dsimp only [] at heq
    refine (finish_order _ s3 sd v c al ?_ heq) sd v c al rfl
    apply andThen_stepok _ _ ?_ (fun y hy => phAccumSell_stepok y t now ts sS hy)
    apply andThen_stepok _ _ ?_ (fun y hy => phAccumBuy_stepok y t now ts sB hy)
    apply andThen_stepok _ _ ?_ (fun y hy =>
      show StepOk (phExtCloseSell y t now, none) from phExtCloseSell_freshlen y t now hy)
    apply andThen_stepok _ _ ?_ (fun y hy =>
      show StepOk (phExtCloseBuy y t now, none) from phExtCloseBuy_freshlen y t now hy)
    apply andThen_stepok _ _ ?_ (fun y hy => phTpSell_stepok y t hy)
    apply andThen_stepok _ _ ?_ (fun y hy => phTpBuy_stepok y t hy)
    apply andThen_stepok _ _ ?_ (fun y hy => phSellHedge_stepok y t now ts sB hy)
    apply andThen_stepok _ _ ?_ (fun y hy => phBuyHedge_stepok y t now ts sS hy)
    apply andThen_stepok _ _ ?_ (fun y hy => phSellClosing_stepok y t hy)
    apply andThen_stepok _ _ ?_ (fun y hy => phBuyClosing_stepok y t hy)
    apply andThen_stepok _ _ ?_ (fun y hy => phPending_stepok y hy)
    exact phReconcile_stepok _ t ts hfresh

/-- State for the C4 witness: an anchored buy session one gap above
the market with a single configured layer. -/
def c4WitState : SystemState :=
  { initState with
    runtime := { initRuntime with
      buy_on := true
      buy_id := "buy_99999999"
      buy_start_ref := 50 }
    settings := { initSettings with
      rows_buy := [{ index := 0, dollar := 1, lots := 2, alert := true }] } }

/-- Tick for the C4 witness: ask at the layer-0 trigger. -/
def c4WitTick : TickData :=
  { account_id := "a", equity := 1, balance := 1, symbol := "X"
    ask := 49, bid := 49, positions := [] }

/-- The state returned by the C4 witness tick. -/
def c4WitS3 : SystemState :=
  (handle_tick c4WitState c4WitTick 0 "T" "ffffffff" "eeeeeeee").1

/-- Witness for the amended C4 theorem: the concrete tick emits BUY
`buy_99999999_idx0` and index 0 is a fresh insertion. -/
theorem c4_order_executes_fresh_layer_witness :
    ∃ pm n st2, mapLookup pm n = none
      ∧ "buy_99999999_idx0" = (if "BUY" = "BUY" then c4WitS3.runtime.buy_id
          else c4WitS3.runtime.sell_id) ++ "_idx" ++ toString n
      ∧ (if "BUY" = "BUY" then c4WitS3.runtime.buy_exec_map
          else c4WitS3.runtime.sell_exec_map) = mapInsert pm n st2 :=
  c4_order_executes_fresh_layer c4WitState c4WitTick 0 "T" "ffffffff" "eeeeeeee"
    c4WitS3 "BUY" 2 "buy_99999999_idx0" true
    ⟨by with_unfolding_all rfl, by with_unfolding_all rfl⟩
    (by with_unfolding_all rfl)

end ElasticDCA
